import Mathlib

/-!
Verification development for the RFNoC graph core (host/lib/rfnoc/graph.cpp
and the node/property headers).  The C++ code is shallowly embedded: the
boost adjacency list becomes an index-based node list plus an edge-record
list, properties become records with explicit dirty flags, resolver closures
become Lean functions on a node's property list, and every C++ exception
becomes a constructor of the `Err` type.  Logging is modelled by error
payloads where the log contents matter (the list of unresolvable
properties).  The single `value : Nat` field abstracts the property payload:
the runtime-type (RTTI) machinery of the C++ property store is not exercised
by any statement below, so all modelled properties share one value type and
`property_t::equal` (same type and same data) becomes equality of values.
-/

/-- Source type of a resource, res_source_info::source_t (uhd/rfnoc/property.hpp,
declaration only; the four tags are USER, INPUT_EDGE, OUTPUT_EDGE, FRAMEWORK). -/
inductive SourceType where
  | USER : SourceType
  | INPUT_EDGE : SourceType
  | OUTPUT_EDGE : SourceType
  | FRAMEWORK : SourceType
deriving DecidableEq, Repr

/-- Modelled from the spec: res_source_info::invert_edge swaps INPUT and OUTPUT
and is only meaningful on edge tags (the header with its definition is not in
src/); non-edge tags are returned unchanged here and are never passed in by
the definitions below. -/
def invert_edge : SourceType → SourceType
  | SourceType.INPUT_EDGE => SourceType.OUTPUT_EDGE
  | SourceType.OUTPUT_EDGE => SourceType.INPUT_EDGE
  | t => t

/-- A res_source_info value: a source tag plus an instance (port) number. -/
structure ResSourceInfo where
  type : SourceType
  inst : Nat
deriving DecidableEq, Repr

/-- One registered property of a node: id string, source descriptor, current
value and dirty flag.  (`valid` and the access mode are engine-internal
bookkeeping not observed by any claim.) -/
structure NodeProp where
  id : String
  src : ResSourceInfo
  value : Nat
  dirty : Bool
deriving DecidableEq, Repr

/-- Equality test used by property_t::equal: same (single, modelled) type and
same data. -/
def prop_equal (p q : NodeProp) : Bool :=
  p.value == q.value

/-- Reference to a resolver input/output: either a registered property of the
node, keyed by (source descriptor, id), or the ALWAYS_DIRTY dirtifier
sentinel (dirtifier.hpp), whose is_dirty() is constantly true. -/
inductive PropRef where
  | regular : ResSourceInfo → String → PropRef
  | alwaysDirty : PropRef
deriving DecidableEq, Repr

/-- Is the referenced property dirty in the given property list?  The
dirtifier reference is always dirty (dirtifier.hpp). -/
def prop_ref_dirty (props : List NodeProp) : PropRef → Bool
  | PropRef.alwaysDirty => true
  | PropRef.regular s i => props.any (fun p => p.src == s && p.id == i && p.dirty)

/-- A property resolver: input set, output set and the user closure.  The
closure is modelled as an arbitrary transformation of the node's property
list (the C++ access-mode enforcement is advisory bookkeeping around the
closure call). -/
structure Resolver where
  inputs : List PropRef
  outputs : List PropRef
  fn : List NodeProp → List NodeProp

/-- A graph node: unique id, registered properties, resolver list and the
virtual check_topology predicate (node.hpp). -/
structure Node where
  uid : String
  props : List NodeProp
  resolvers : List Resolver
  check_topology : List Nat → List Nat → Bool

/-- Edge attributes, graph_t::graph_edge_t: ports, block ids and the
property_propagation_active flag. -/
structure GraphEdge where
  src_port : Nat
  dst_port : Nat
  src_blockid : String
  dst_blockid : String
  property_propagation_active : Bool
deriving DecidableEq, Repr

/-- A stored edge: source vertex index, destination vertex index and the edge
attributes (boost::adjacency_list with vecS vertex storage makes vertex
descriptors the insertion indices). -/
structure EdgeRec where
  src : Nat
  dst : Nat
  info : GraphEdge
deriving DecidableEq, Repr

/-- The graph state: vertex list (in insertion order), edge list (in
insertion order; the vecS edge container admits parallel edges) and the
commit/release counter. -/
structure Graph where
  nodes : List Node
  edges : List EdgeRec
  releaseCount : Nat

/-- All error conditions thrown by the embedded code, one constructor per
distinct C++ throw site relevant here.  resolveErrorDirty carries the
logged list of (node id, property id) offenders. -/
inductive Err where
  | resolveErrorDirty : List (String × String) → Err
  | resolveErrorBackEdge : Err
  | outOfRange : Err
  | rfnocErrorCycle : Err
  | rfnocErrorModifyEdge : Err
  | rfnocErrorReconnectOut : Err
  | rfnocErrorReconnectIn : Err
  | runtimeErrorTopology : Err
  | runtimeErrorRecursionLimit : Err
  | invalidCodePath : Err
deriving DecidableEq, Repr

/-- Placeholder node used as the default of list lookups that are always in
range along the executed paths. -/
def emptyNode : Node :=
  { uid := "", props := [], resolvers := [], check_topology := fun _ _ => true }

/-- Vertex lookup by index. -/
def node_at (g : Graph) (v : Nat) : Node :=
  g.nodes.getD v emptyNode

/-- Replace the node at a vertex index by a transformed node. -/
def updateNodeAt (g : Graph) (v : Nat) (f : Node → Node) : Graph :=
  { g with nodes := g.nodes.set v (f (node_at g v)) }

/-- boost::out_edges: stored edges whose source is the given vertex, in
insertion order. -/
def out_edges (g : Graph) (v : Nat) : List EdgeRec :=
  g.edges.filter (fun e => e.src == v)

/-- boost::in_edges: stored edges whose destination is the given vertex. -/
def in_edges (g : Graph) (v : Nat) : List EdgeRec :=
  g.edges.filter (fun e => e.dst == v)

/-- get_dirty_props (graph.cpp lines 34-42): the node's properties that are
dirty and whose source type is not FRAMEWORK. -/
def get_dirty_props (nd : Node) : List NodeProp :=
  nd.props.filter (fun p => p.dirty && !(p.src.type == SourceType.FRAMEWORK))

/-- graph_t::_find_dirty_nodes: vertices (in vertex order) with at least one
dirty non-FRAMEWORK property, via DirtyNodePredicate. -/
def find_dirty_nodes (g : Graph) : List Nat :=
  (List.range g.nodes.length).filter (fun v => !(get_dirty_props (node_at g v)).isEmpty)

/-- The (node id, property id) pairs logged by resolve_all_properties when
properties could not be resolved (graph.cpp lines 305-317). -/
def dirty_offenders (g : Graph) : List (String × String) :=
  (find_dirty_nodes g).flatMap
    (fun v => (get_dirty_props (node_at g v)).map (fun p => ((node_at g v).uid, p.id)))

/-- Boolean statement that no non-FRAMEWORK property of any node is dirty. -/
def no_dirty_nonframework (g : Graph) : Bool :=
  (List.range g.nodes.length).all (fun v => (get_dirty_props (node_at g v)).isEmpty)

/-- node_t::resolve_props (documented in node.hpp lines 326-349; node.cpp is
not in src/): compute the dirty set first, then run, in registration order,
every resolver having a dirty property (or the always-dirty sentinel) in its
input list. -/
def node_resolve_props (nd : Node) : Node :=
  { nd with
    props := nd.resolvers.foldl
      (fun ps r => if r.inputs.any (prop_ref_dirty nd.props) then r.fn ps else ps)
      nd.props }

/-- node_t::clean_props (documented in node.hpp lines 355-360): mark every
property clean. -/
def node_clean_props (nd : Node) : Node :=
  { nd with props := nd.props.map (fun p => { p with dirty := false }) }

/-- graph_t::_find_neighbour (graph.cpp lines 563-592): scan incoming edges by
dst_port for an INPUT_EDGE port, outgoing edges by src_port for an
OUTPUT_EDGE port, and hit the invalid-code-path throw otherwise. -/
def find_neighbour (g : Graph) (origin : Nat) (port : ResSourceInfo) :
    Except Err (Option (Nat × GraphEdge)) :=
  match port.type with
  | SourceType.INPUT_EDGE =>
    match (in_edges g origin).find? (fun e => e.info.dst_port == port.inst) with
    | some e => Except.ok (some (e.src, e.info))
    | none => Except.ok none
  | SourceType.OUTPUT_EDGE =>
    match (out_edges g origin).find? (fun e => e.info.src_port == port.inst) with
    | some e => Except.ok (some (e.dst, e.info))
    | none => Except.ok none
  | _ => Except.error Err.invalidCodePath

/-- Modelled from the spec: node_t::forward_edge_property (node.cpp is not in
src/; behaviour per node.hpp lines 370-405 and spec 4.F.2-4.H): on the
receiving node locate the property with the same id, the inverted source tag
and the receiving port; copy the value and mark it dirty iff the value
changed.  When the property is unknown, a dynamic counterpart at the
receiving position is created with default-dirty state; the policy fan-out
and the injected copying resolvers of spec 4.H are not modelled (no claim
below depends on them). -/
def forward_edge_property (incoming : NodeProp) (incoming_port : Nat) (nd : Node) : Node :=
  let tgt : ResSourceInfo := { type := invert_edge incoming.src.type, inst := incoming_port }
  if nd.props.any (fun p => p.src == tgt && p.id == incoming.id) then
    { nd with
      props := nd.props.map (fun p =>
        if p.src == tgt && p.id == incoming.id then
          { p with value := incoming.value, dirty := p.dirty || !(p.value == incoming.value) }
        else p) }
  else
    { nd with props := nd.props ++ [{ id := incoming.id, src := tgt, value := incoming.value, dirty := true }] }

/-- graph_t::_forward_edge_props (graph.cpp lines 451-476): for every edge
property of the origin node, look up the neighbour across the matching edge
and, when the edge propagates properties, forward the property to the
neighbour-side port. -/
def forward_edge_props (g : Graph) (origin : Nat) : Graph :=
  let nd := node_at g origin
  let edgeProps := nd.props.filter
    (fun p => p.src.type == SourceType.INPUT_EDGE || p.src.type == SourceType.OUTPUT_EDGE)
  edgeProps.foldl
    (fun h p =>
      match find_neighbour h origin p.src with
      | Except.ok (some (nb, einfo)) =>
        if einfo.property_propagation_active then
          let neighbour_port :=
            if p.src.type == SourceType.INPUT_EDGE then einfo.src_port else einfo.dst_port
          updateNodeAt h nb (forward_edge_property p neighbour_port)
        else h
      | _ => h)
    g

/-- The edges along which properties propagate (ForwardEdgePredicate: the
filtered graph used for the topological sort keeps exactly the edges with
property_propagation_active set). -/
def propagating_pairs (g : Graph) : List (Nat × Nat) :=
  g.edges.filterMap
    (fun e => if e.info.property_propagation_active then some (e.src, e.dst) else none)

/-- One step of the topological sort: among the remaining vertices pick the
first with no incoming propagating edge from a remaining vertex. -/
def kahnPick (rem : List Nat) (es : List (Nat × Nat)) : Option Nat :=
  rem.find? (fun v => !(es.any (fun e => e.2 == v && rem.contains e.1)))

/-- Kahn elimination with fuel equal to the vertex count: returns the sorted
vertex list or none when a cycle (a set of vertices all with remaining
incoming edges) blocks progress. -/
def kahnAux (es : List (Nat × Nat)) : Nat → List Nat → Option (List Nat)
  | 0, rem => if rem.isEmpty then some [] else none
  | fuel + 1, rem =>
    if rem.isEmpty then some []
    else
      match kahnPick rem es with
      | none => none
      | some v => (kahnAux es fuel (rem.erase v)).map (fun l => v :: l)

/-- graph_t::_get_topo_sorted_nodes (graph.cpp lines 425-439): topologically
sort the propagating sub-graph; none models the boost::not_a_dag rethrow.
boost uses a DFS-based sort; any topological order satisfies the code's
contract, and this embedding fixes the deterministic smallest-index Kahn
order. -/
def topo_sorted_nodes (g : Graph) : Option (List Nat) :=
  kahnAux (propagating_pairs g) g.nodes.length (List.range g.nodes.length)

/-- MAX_NUM_ITERATIONS (graph.cpp line 249): hard-coded number of full passes
of the resolution walk. -/
def MAX_NUM_ITERATIONS : Nat := 2

/-- One cursor move of the resolution walk (graph.cpp lines 268-288) on the
pair (index into the sorted node list, direction flag): going forward,
advance and fall back off the sentinel at the end; whenever the direction is
(or has just become) backward, step back and flip to forward on reaching the
front (or immediately when the list has a single element). -/
def stepCur (n : Nat) (s : Nat × Bool) : Nat × Bool :=
  let s1 := if s.2 then (if s.1 + 1 = n then (s.1, false) else (s.1 + 1, true)) else s
  if s1.2 then s1
  else if n ≤ 1 then (s1.1, true)
  else (s1.1 - 1, decide (s1.1 - 1 = 0))

/-- The visit sequence of the resolution walk (graph.cpp lines 250-299):
starting from the initial node's position, emit the current position, move
the cursor, count a full pass whenever the cursor arrives forward at the
initial position, and stop when the pass count reaches MAX_NUM_ITERATIONS.
The fuel argument only makes the recursion structural; the callers below
always supply provably sufficient fuel. -/
def walkVisits (n k0 : Nat) : Nat → Nat × Bool → Nat → List Nat
  | 0, _, _ => []
  | fuel + 1, s, passes =>
    let s' := stepCur n s
    if s'.2 = true ∧ s'.1 = k0 then
      if passes + 1 = MAX_NUM_ITERATIONS then [s.1]
      else s.1 :: walkVisits n k0 fuel s' (passes + 1)
    else s.1 :: walkVisits n k0 fuel s' passes

/-- The closed form of one full pass of the walk: forward from the start
position to the end of the list, backward over the interior, and forward
again up to (excluding) the start position. -/
def walkLap (n k0 : Nat) : List Nat :=
  if n = 1 then [0]
  else List.range' k0 (n - k0) ++ (List.range' 1 (n - 2)).reverse ++ List.range' 0 k0

/-- Number of nodes processed during one full pass. -/
def lapLen (n k0 : Nat) : Nat :=
  (walkLap n k0).length

/-- Processing of one visited position (graph.cpp lines 250-266): run the
node's local resolution, forward its edge properties, then mark all its
properties clean. -/
def process_node (g : Graph) (ord : List Nat) (pos : Nat) : Graph :=
  let v := ord.getD pos 0
  let g1 := updateNodeAt g v node_resolve_props
  let g2 := forward_edge_props g1 v
  updateNodeAt g2 v node_clean_props

/-- The two-pass walk of resolve_all_properties over the sorted node list:
the start position is the position of the first initially-dirty vertex (or
vertex 0 when none is dirty), and the cursor dynamics do not depend on the
node contents, so the walk is the fold of process_node over the visit
sequence.  The fuel covers two full passes. -/
def walk_all (g : Graph) (ord : List Nat) : Graph :=
  let n := ord.length
  let init := (find_dirty_nodes g).headD 0
  let k0 := ord.findIdx (fun v => v == init)
  (walkVisits n k0 (lapLen n k0 + (lapLen n k0 + 2)) (k0, true) 0).foldl
    (fun h pos => process_node h ord pos) g

/-- The properties a node presents on one side of an edge
(graph.cpp lines 487-503, the filter inside get_prop_map). -/
def props_at (nd : Node) (etype : SourceType) (port : Nat) : List NodeProp :=
  nd.props.filter (fun p => p.src.inst == port && p.src.type == etype)

/-- Deduplication by id keeping the first occurrence: unordered_map::emplace
semantics of get_prop_map. -/
def dedup_by_id_aux (seen : List String) : List NodeProp → List NodeProp
  | [] => []
  | p :: rest =>
    if seen.contains p.id then dedup_by_id_aux seen rest
    else p :: dedup_by_id_aux (p.id :: seen) rest

/-- Deduplicate a property list by id, first occurrence winning. -/
def dedup_by_id (l : List NodeProp) : List NodeProp :=
  dedup_by_id_aux [] l

/-- Lookup by id in a property map. -/
def lookup_by_id (l : List NodeProp) (i : String) : Option NodeProp :=
  l.find? (fun p => p.id == i)

/-- The source-side property map of an edge: OUTPUT_EDGE properties of the
source node at the edge's src_port. -/
def dedup_src (g : Graph) (e : EdgeRec) : List NodeProp :=
  dedup_by_id (props_at (node_at g e.src) SourceType.OUTPUT_EDGE e.info.src_port)

/-- The destination-side property map of an edge: INPUT_EDGE properties of
the destination node at the edge's dst_port. -/
def dedup_dst (g : Graph) (e : EdgeRec) : List NodeProp :=
  dedup_by_id (props_at (node_at g e.dst) SourceType.INPUT_EDGE e.info.dst_port)

/-- The comparison loop of _assert_edge_props_consistent (graph.cpp lines
511-523): for every source-side property look up the destination counterpart
with unordered_map::at (std::out_of_range when absent), accumulate the
conjunction of the equal() results, and keep scanning after a mismatch. -/
def edge_props_match (dst_map : List NodeProp) : List NodeProp → Bool → Except Err Bool
  | [], acc => Except.ok acc
  | p :: rest, acc =>
    match lookup_by_id dst_map p.id with
    | none => Except.error Err.outOfRange
    | some q => edge_props_match dst_map rest (acc && prop_equal p q)

/-- graph_t::_assert_edge_props_consistent (graph.cpp lines 478-526). -/
def assert_edge_props_consistent (g : Graph) (e : EdgeRec) : Except Err Bool :=
  edge_props_match (dedup_dst g e) (dedup_src g e) true

/-- The back-edges: edges with property_propagation_active unset
(BackEdgePredicate). -/
def back_edges (g : Graph) : List EdgeRec :=
  g.edges.filter (fun e => !e.info.property_propagation_active)

/-- The loop over back-edges (graph.cpp lines 326-329): the short-circuit of
back_edges_valid && _assert_edge_props_consistent(e) skips the call once the
flag is false. -/
def check_back_edges_aux (g : Graph) : List EdgeRec → Bool → Except Err Bool
  | [], acc => Except.ok acc
  | e :: es, acc =>
    if acc then
      match assert_edge_props_consistent g e with
      | Except.error err => Except.error err
      | Except.ok b => check_back_edges_aux g es b
    else check_back_edges_aux g es false

/-- Verify all back-edges, starting from a true flag. -/
def check_back_edges (g : Graph) : Except Err Bool :=
  check_back_edges_aux g (back_edges g) true

/-- Result of resolve_all_properties: the post-call graph state, whether the
two-pass walk executed, and the thrown error if any. -/
structure ResolveOut where
  graph : Graph
  walkRan : Bool
  err : Option Err

/-- The post-walk phase of resolve_all_properties (graph.cpp lines 301-333):
fail listing every remaining dirty non-FRAMEWORK property if any, then fail
if the back-edge consistency check finds a mismatch (or its map lookup goes
out of range).  resolve_all_full below returns immediately on an empty or
released graph, picks the start node, topologically sorts the propagating
sub-graph (rethrowing the cycle error), runs the two-pass walk and then this
phase. -/
def resolve_post (g' : Graph) : ResolveOut :=
  if dirty_offenders g' = [] then
    match check_back_edges g' with
    | Except.error e => { graph := g', walkRan := true, err := some e }
    | Except.ok true => { graph := g', walkRan := true, err := none }
    | Except.ok false =>
      { graph := g', walkRan := true, err := some Err.resolveErrorBackEdge }
  else { graph := g', walkRan := true, err := some (Err.resolveErrorDirty (dirty_offenders g')) }

/-- graph_t::resolve_all_properties, full pipeline. -/
def resolve_all_full (g : Graph) : ResolveOut :=
  if g.nodes.length = 0 then { graph := g, walkRan := false, err := none }
  else if g.releaseCount ≠ 0 then { graph := g, walkRan := false, err := none }
  else
    match topo_sorted_nodes g with
    | none => { graph := g, walkRan := false, err := some Err.rfnocErrorCycle }
    | some ord => resolve_post (walk_all g ord)

/-- The exception view of resolve_all_properties. -/
def resolve_all_properties (g : Graph) : Except Err Graph :=
  match (resolve_all_full g).err with
  | some e => Except.error e
  | none => Except.ok (resolve_all_full g).graph

/-- Whether a call to resolve_all_properties on this graph state would
execute the walk: non-empty, committed, and acyclic propagating sub-graph. -/
def walk_would_run (g : Graph) : Bool :=
  !(g.nodes.length == 0) && (g.releaseCount == 0) && (topo_sorted_nodes g).isSome

/-- The dst_port lists of a node's incoming edges (graph.cpp lines 537-541). -/
def connected_in_ports (g : Graph) (v : Nat) : List Nat :=
  (in_edges g v).map (fun e => e.info.dst_port)

/-- The src_port lists of a node's outgoing edges (graph.cpp lines 542-546). -/
def connected_out_ports (g : Graph) (v : Nat) : List Nat :=
  (out_edges g v).map (fun e => e.info.src_port)

/-- graph_t::_check_topology (graph.cpp lines 528-561): every node's
check_topology must accept its connected input and output port lists. -/
def check_topology_all (g : Graph) : Bool :=
  (List.range g.nodes.length).all
    (fun v => (node_at g v).check_topology (connected_in_ports g v) (connected_out_ports g v))

/-- Result of commit: post state, whether _check_topology ran, whether the
propagation walk executed, and the thrown error if any. -/
structure CommitOut where
  graph : Graph
  topoChecked : Bool
  walkRan : Bool
  err : Option Err

/-- graph_t::commit (graph.cpp lines 176-184): when the release counter is
non-zero, decrement it and run _check_topology (throwing when some node
rejects its connectivity); afterwards always call resolve_all_properties,
which itself is a no-op unless the counter is now zero. -/
def commit (g : Graph) : CommitOut :=
  if g.releaseCount ≠ 0 then
    let g1 : Graph := { g with releaseCount := g.releaseCount - 1 }
    if check_topology_all g1 then
      let r := resolve_all_full g1
      { graph := r.graph, topoChecked := true, walkRan := r.walkRan, err := r.err }
    else { graph := g1, topoChecked := true, walkRan := false, err := some Err.runtimeErrorTopology }
  else
    let r := resolve_all_full g
    { graph := r.graph, topoChecked := false, walkRan := r.walkRan, err := r.err }

/-- graph_t::release (graph.cpp lines 186-190). -/
def release (g : Graph) : Graph :=
  { g with releaseCount := g.releaseCount + 1 }

/-- assert_edge_new (graph.cpp lines 48-80): identical edges are accepted
silently; same endpoints with different attributes is a modification error;
a source port already sourced elsewhere is reconnect-output; a destination
port already sunk elsewhere is reconnect-input.  graph_edge_t::operator==
(declared in the graph header, not in src/) compares all five attributes,
per the spec's identical-in-every-attribute wording. -/
def assert_edge_new (new_edge existing : GraphEdge) : Option Err :=
  if existing == new_edge then none
  else if existing.src_port == new_edge.src_port && existing.src_blockid == new_edge.src_blockid
      && existing.dst_port == new_edge.dst_port && existing.dst_blockid == new_edge.dst_blockid then
    some Err.rfnocErrorModifyEdge
  else if new_edge.src_blockid == existing.src_blockid
      && new_edge.src_port == existing.src_port then
    some Err.rfnocErrorReconnectOut
  else if new_edge.dst_blockid == existing.dst_blockid
      && new_edge.dst_port == existing.dst_port then
    some Err.rfnocErrorReconnectIn
  else none

/-- The first error raised while scanning a list of existing edges with
assert_edge_new. -/
def first_edge_err (new_edge : GraphEdge) : List EdgeRec → Option Err
  | [] => none
  | r :: rest =>
    match assert_edge_new new_edge r.info with
    | some e => some e
    | none => first_edge_err new_edge rest

/-- graph_t::_add_node (graph.cpp lines 441-448): append the node unless it is
already a vertex.  Node identity is by unique id (the C++ map is keyed by the
node pointer; distinct live nodes have distinct unique ids). -/
def add_node (g : Graph) (nd : Node) : Graph :=
  if g.nodes.any (fun x => x.uid == nd.uid) then g
  else { g with nodes := g.nodes ++ [nd] }

/-- Vertex index of the node with the given unique id. -/
def nodeIdxOf (g : Graph) (u : String) : Nat :=
  g.nodes.findIdx (fun nd => nd.uid == u)

/-- graph_t::connect (graph.cpp lines 107-174): populate the block ids, add
the endpoints as vertices when new, check the new edge against every
existing out-edge of the source and in-edge of the destination, append the
edge, and undo the append (throwing the cycle error) when the topological
sort of the propagating sub-graph now fails.  The resolve_all/post_action
callback installation has no observable effect in this model.  The result
carries the post-call state together with the thrown error, if any.
connect_check is the part after vertex insertion: reject the new edge on a
conflict with an existing out-edge of the source or in-edge of the
destination, otherwise append it and, when the topological sort of the
propagating sub-graph now fails, remove it again and report the cycle. -/
def connect_check (g1 : Graph) (sv dv : Nat) (e : GraphEdge) : Graph × Option Err :=
  match first_edge_err e (out_edges g1 sv ++ in_edges g1 dv) with
  | some err => (g1, some err)
  | none =>
    let g2 : Graph := { g1 with edges := g1.edges ++ [{ src := sv, dst := dv, info := e }] }
    match topo_sorted_nodes g2 with
    | some _ => (g2, none)
    | none => (g1, some Err.rfnocErrorCycle)

/-- graph_t::connect, assembled: populate the block ids, add the vertices,
then run the edge checks and the tentative insertion. -/
def connect (g : Graph) (src dst : Node) (einfo : GraphEdge) : Graph × Option Err :=
  let e : GraphEdge := { einfo with src_blockid := src.uid, dst_blockid := dst.uid }
  let g1 := add_node (add_node g src) dst
  connect_check g1 (nodeIdxOf g1 src.uid) (nodeIdxOf g1 dst.uid) e

theorem stepCur_fwd_mid (n i : Nat) (h : i + 1 ≠ n) : stepCur n (i, true) = (i + 1, true) := by
  simp [stepCur, h]

theorem stepCur_fwd_top (n : Nat) (h2 : 2 ≤ n) :
    stepCur n (n - 1, true) = (n - 2, decide (n - 2 = 0)) := by
  have h1 : n - 1 + 1 = n := by omega
  have h3 : ¬ n ≤ 1 := by omega
  simp [stepCur, h1, h3]
  omega

theorem stepCur_one : stepCur 1 (0, true) = (0, true) := by
  simp [stepCur]

theorem stepCur_bwd (n i : Nat) (h : ¬ n ≤ 1) : stepCur n (i, false) = (i - 1, decide (i - 1 = 0)) := by
  simp [stepCur, h]

theorem wv_step_no (n k0 fuel : Nat) (s : Nat × Bool) (p : Nat)
    (h : ¬((stepCur n s).2 = true ∧ (stepCur n s).1 = k0)) :
    walkVisits n k0 (fuel + 1) s p = s.1 :: walkVisits n k0 fuel (stepCur n s) p := by
  simp [walkVisits, h]

theorem wv_step_hit (n k0 fuel : Nat) (s : Nat × Bool) (p : Nat)
    (h : (stepCur n s).2 = true ∧ (stepCur n s).1 = k0) (hp : p + 1 ≠ 2) :
    walkVisits n k0 (fuel + 1) s p = s.1 :: walkVisits n k0 fuel (stepCur n s) (p + 1) := by
  simp [walkVisits, h, MAX_NUM_ITERATIONS, hp]

theorem wv_step_stop (n k0 fuel : Nat) (s : Nat × Bool) (p : Nat)
    (h : (stepCur n s).2 = true ∧ (stepCur n s).1 = k0) (hp : p + 1 = 2) :
    walkVisits n k0 (fuel + 1) s p = [s.1] := by
  simp [walkVisits, h, MAX_NUM_ITERATIONS, hp]

theorem range'_snoc (a m : Nat) : List.range' a (m + 1) = List.range' a m ++ [a + m] := by
  induction m generalizing a with
  | zero => simp [List.range']
  | succ m ih =>
    have : List.range' a (m + 2) = a :: List.range' (a + 1) (m + 1) := by simp [List.range']
    rw [this, ih (a + 1)]
    have : a + 1 + m = a + (m + 1) := by omega
    simp [List.range', this]

theorem wv_fwd_seg (n k0 : Nat) : ∀ m i p fuel : Nat, i + (m + 1) = n → k0 ≤ i →
    walkVisits n k0 (m + fuel) (i, true) p
      = List.range' i m ++ walkVisits n k0 fuel (n - 1, true) p := by
  intro m
  induction m with
  | zero =>
    intro i p fuel hi _
    have : i = n - 1 := by omega
    subst this
    simp [List.range']
  | succ m ih =>
    intro i p fuel hi hk
    have hne : i + 1 ≠ n := by omega
    have hstep : stepCur n (i, true) = (i + 1, true) := stepCur_fwd_mid n i hne
    have hno : ¬((stepCur n (i, true)).2 = true ∧ (stepCur n (i, true)).1 = k0) := by
      rw [hstep]
      simp
      omega
    have hfuel : m + 1 + fuel = m + fuel + 1 := by omega
    rw [hfuel, wv_step_no n k0 (m + fuel) (i, true) p hno, hstep,
      ih (i + 1) p fuel (by omega) (by omega)]
    simp [List.range']

theorem wv_bwd_seg (n k0 : Nat) : ∀ m p fuel : Nat, m + 2 ≤ n →
    walkVisits n k0 (m + fuel) (m + 1, false) p
      = (List.range' 2 m).reverse ++ walkVisits n k0 fuel (1, false) p := by
  intro m
  induction m with
  | zero =>
    intro p fuel _
    simp [List.range']
  | succ m ih =>
    intro p fuel hm
    have hn1 : ¬ n ≤ 1 := by omega
    have hstep : stepCur n (m + 2, false) = (m + 1, false) := by
      rw [stepCur_bwd n (m + 2) hn1]
      have : m + 2 - 1 = m + 1 := by omega
      simp [this]
    have hno : ¬((stepCur n (m + 2, false)).2 = true ∧ (stepCur n (m + 2, false)).1 = k0) := by
      rw [hstep]
      simp
    have hfuel : m + 1 + fuel = m + fuel + 1 := by omega
    rw [hfuel, wv_step_no n k0 (m + fuel) (m + 2, false) p hno, hstep,
      ih p fuel (by omega), range'_snoc 2 m]
    simp
    omega

theorem wv_fwd_low (n k0 : Nat) : ∀ m i p fuel : Nat, i + (m + 1) = k0 → k0 < n →
    walkVisits n k0 (m + 1 + fuel) (i, true) p
      = List.range' i (m + 1)
        ++ (if p + 1 = 2 then [] else walkVisits n k0 fuel (k0, true) (p + 1)) := by
  intro m
  induction m with
  | zero =>
    intro i p fuel hi hk
    have hne : i + 1 ≠ n := by omega
    have hstep : stepCur n (i, true) = (i + 1, true) := stepCur_fwd_mid n i hne
    have hhit : (stepCur n (i, true)).2 = true ∧ (stepCur n (i, true)).1 = k0 := by
      rw [hstep]
      simp
      omega
    by_cases hp : p + 1 = 2
    · rw [show (0 : Nat) + 1 + fuel = fuel + 1 by omega,
        wv_step_stop n k0 fuel (i, true) p hhit hp]
      simp [List.range', hp]
    · rw [show (0 : Nat) + 1 + fuel = fuel + 1 by omega,
        wv_step_hit n k0 fuel (i, true) p hhit hp, hstep]
      have : i + 1 = k0 := by omega
      simp [List.range', this, hp]
  | succ m ih =>
    intro i p fuel hi hk
    have hne : i + 1 ≠ n := by omega
    have hstep : stepCur n (i, true) = (i + 1, true) := stepCur_fwd_mid n i hne
    have hno : ¬((stepCur n (i, true)).2 = true ∧ (stepCur n (i, true)).1 = k0) := by
      rw [hstep]
      simp
      omega
    rw [show m + 1 + 1 + fuel = m + 1 + fuel + 1 by omega,
      wv_step_no n k0 (m + 1 + fuel) (i, true) p hno, hstep,
      ih (i + 1) p fuel (by omega) hk]
    simp [List.range']

theorem lapLen_eq (n k0 : Nat) (h2 : 2 ≤ n) : lapLen n k0 = (n - k0) + (n - 2) + k0 := by
  have hne : n ≠ 1 := by omega
  simp [lapLen, walkLap, hne]
  omega

theorem wv_lap (n k0 p fuel : Nat) (h1 : 1 ≤ n) (hk : k0 < n) :
    walkVisits n k0 (lapLen n k0 + fuel) (k0, true) p
      = walkLap n k0 ++ (if p + 1 = 2 then [] else walkVisits n k0 fuel (k0, true) (p + 1)) := by
  by_cases hn1 : n = 1
  · subst hn1
    have hk0 : k0 = 0 := by omega
    subst hk0
    have hll : lapLen 1 0 = 1 := rfl
    rw [hll, show 1 + fuel = fuel + 1 by omega]
    have hhit : (stepCur 1 (0, true)).2 = true ∧ (stepCur 1 (0, true)).1 = 0 := by
      rw [stepCur_one]
      simp
    by_cases hp : p + 1 = 2
    · rw [wv_step_stop 1 0 fuel (0, true) p hhit hp]
      simp [walkLap, hp]
    · rw [wv_step_hit 1 0 fuel (0, true) p hhit hp, stepCur_one]
      simp [walkLap, hp]
  · have h2 : 2 ≤ n := by omega
    rw [lapLen_eq n k0 h2,
      show (n - k0) + (n - 2) + k0 + fuel = (n - 1 - k0) + (1 + (n - 2 + k0 + fuel)) by omega,
      wv_fwd_seg n k0 (n - 1 - k0) k0 p (1 + (n - 2 + k0 + fuel)) (by omega) (by omega),
      show 1 + (n - 2 + k0 + fuel) = (n - 2 + k0 + fuel) + 1 by omega]
    by_cases hn2 : n = 2
    · subst hn2
      have hk2 : k0 = 0 ∨ k0 = 1 := by omega
      rcases hk2 with hk0 | hk0
      · subst hk0
        have hhit : (stepCur 2 (2 - 1, true)).2 = true ∧ (stepCur 2 (2 - 1, true)).1 = 0 := by
          rw [stepCur_fwd_top 2 (by omega)]
          simp
        by_cases hp : p + 1 = 2
        · rw [wv_step_stop 2 0 (2 - 2 + 0 + fuel) (2 - 1, true) p hhit hp]
          simp [walkLap, List.range', hp]
        · rw [wv_step_hit 2 0 (2 - 2 + 0 + fuel) (2 - 1, true) p hhit hp,
            stepCur_fwd_top 2 (by omega)]
          simp [walkLap, List.range', hp]
      · subst hk0
        have hno : ¬((stepCur 2 (2 - 1, true)).2 = true ∧ (stepCur 2 (2 - 1, true)).1 = 1) := by
          rw [stepCur_fwd_top 2 (by omega)]
          simp
        rw [wv_step_no 2 1 (2 - 2 + 1 + fuel) (2 - 1, true) p hno,
          stepCur_fwd_top 2 (by omega),
          show (2 : Nat) - 2 + 1 + fuel = 0 + 1 + fuel by omega]
        have hlow := wv_fwd_low 2 1 0 0 p fuel (by omega) (by omega)
        rw [show ((2 : Nat) - 2, decide ((2 : Nat) - 2 = 0)) = ((0 : Nat), true) by simp] at *
        rw [hlow]
        simp [walkLap, List.range']
    · have h3 : 3 ≤ n := by omega
      have hstep' : stepCur n (n - 1, true) = (n - 2, false) := by
        rw [stepCur_fwd_top n h2]
        simp
        omega
      have hno : ¬((stepCur n (n - 1, true)).2 = true ∧ (stepCur n (n - 1, true)).1 = k0) := by
        rw [hstep']
        simp
      rw [wv_step_no n k0 (n - 2 + k0 + fuel) (n - 1, true) p hno, hstep',
        show n - 2 + k0 + fuel = (n - 3) + (1 + (k0 + fuel)) by omega,
        show ((n - 2 : Nat), false) = ((n - 3) + 1, false) by rw [show (n - 2 : Nat) = (n - 3) + 1 by omega]]
      rw [wv_bwd_seg n k0 (n - 3) p (1 + (k0 + fuel)) (by omega),
        show 1 + (k0 + fuel) = (k0 + fuel) + 1 by omega]
      have hstepD : stepCur n (1, false) = (0, true) := by
        rw [stepCur_bwd n 1 (by omega)]
        simp
      have e2 : List.range' 1 (n - 2) = 1 :: List.range' 2 (n - 3) := by
        conv_lhs => rw [show n - 2 = (n - 3) + 1 by omega]
        simp [List.range']
      by_cases hk0 : k0 = 0
      · subst hk0
        have hhit : (stepCur n (1, false)).2 = true ∧ (stepCur n (1, false)).1 = 0 := by
          rw [hstepD]
          simp
        have e1 : List.range' 0 n = List.range' 0 (n - 1) ++ [n - 1] := by
          conv_lhs => rw [show n = (n - 1) + 1 by omega]
          rw [range'_snoc]
          simp
        by_cases hp : p + 1 = 2
        · rw [wv_step_stop n 0 (0 + fuel) (1, false) p hhit hp]
          simp [walkLap, hn1, hp, e1, e2, List.append_assoc]
        · rw [wv_step_hit n 0 (0 + fuel) (1, false) p hhit hp, hstepD,
            show (0 : Nat) + fuel = fuel by omega]
          simp [walkLap, hn1, hp, e1, e2, List.append_assoc]
      · have hno2 : ¬((stepCur n (1, false)).2 = true ∧ (stepCur n (1, false)).1 = k0) := by
          rw [hstepD]
          simp
          omega
        rw [wv_step_no n k0 (k0 + fuel) (1, false) p hno2, hstepD,
          show k0 + fuel = (k0 - 1) + 1 + fuel by omega,
          wv_fwd_low n k0 (k0 - 1) 0 p fuel (by omega) hk,
          show k0 - 1 + 1 = k0 by omega]
        have e1 : List.range' k0 (n - k0) = List.range' k0 (n - 1 - k0) ++ [n - 1] := by
          conv_lhs => rw [show n - k0 = (n - 1 - k0) + 1 by omega]
          rw [range'_snoc, show k0 + (n - 1 - k0) = n - 1 by omega]
        simp [walkLap, hn1, e1, e2, List.append_assoc]

theorem wv_two_laps (n k0 s : Nat) (h1 : 1 ≤ n) (hk : k0 < n) :
    walkVisits n k0 (lapLen n k0 + (lapLen n k0 + s)) (k0, true) 0
      = walkLap n k0 ++ walkLap n k0 := by
  rw [wv_lap n k0 0 (lapLen n k0 + s) h1 hk]
  simp
  rw [wv_lap n k0 1 s h1 hk]
  simp

theorem count_range' (j : Nat) : ∀ a m : Nat,
    (List.range' a m).count j = if a ≤ j ∧ j < a + m then 1 else 0 := by
  intro a m
  induction m generalizing a with
  | zero =>
    simp [List.range']
    rw [if_neg (by omega : ¬(a ≤ j ∧ j < a))]
  | succ m ih =>
    have hr : List.range' a (m + 1) = a :: List.range' (a + 1) m := by simp [List.range']
    rw [hr, List.count_cons, ih (a + 1)]
    by_cases hja : j = a
    · subst hja
      have h1 : ¬(j + 1 ≤ j ∧ j < j + 1 + m) := by omega
      have h2 : j ≤ j ∧ j < j + (m + 1) := by omega
      simp [h1, h2]
    · have hb : (a == j) = false := by
        simp
        omega
      simp [hb]
      split_ifs <;> omega

theorem count_two_laps (n k0 j : Nat) (h1 : 1 ≤ n) (hk : k0 < n) (hj : j < n) :
    (walkLap n k0 ++ walkLap n k0).count j
      = if n = 1 then 2 else if j = 0 ∨ j = n - 1 then 2 else 4 := by
  rw [List.count_append]
  by_cases hn1 : n = 1
  · subst hn1
    have : j = 0 := by omega
    subst this
    simp [walkLap]
  · simp only [walkLap, if_neg hn1]
    rw [List.count_append, List.count_append, List.count_reverse,
      count_range' j k0 (n - k0), count_range' j 1 (n - 2), count_range' j 0 k0]
    simp [hn1]
    split_ifs <;> omega

/-- The instrumented counter property of the S6 scenario (mock radio node,
rfnoc_graph_mock_nodes.hpp lines 80-87): a USER property whose value records
how often the ALWAYS-DIRTY resolver ran. -/
def counter_prop (c : Nat) : NodeProp :=
  { id := "counter", src := { type := SourceType.USER, inst := 0 }, value := c, dirty := false }

/-- The body of the instrumented resolver: increment the counter property
(a write of a changed value also marks it dirty). -/
def inc_counter_fn : List NodeProp → List NodeProp :=
  fun ps => ps.map
    (fun p => if p.id == "counter" then { p with value := p.value + 1, dirty := true } else p)

/-- The instrumented resolver: its input set contains the ALWAYS-DIRTY
sentinel, its output is the counter property. -/
def counter_resolver : Resolver :=
  { inputs := [PropRef.alwaysDirty],
    outputs := [PropRef.regular { type := SourceType.USER, inst := 0 } "counter"],
    fn := inc_counter_fn }

/-- The mock radio: carries the instrumented counter resolver. -/
def mock_radio (c : Nat) : Node :=
  { uid := "radio", props := [counter_prop c], resolvers := [counter_resolver],
    check_topology := fun _ _ => true }

/-- A trivial sink node. -/
def mock_sink : Node :=
  { uid := "sink", props := [], resolvers := [], check_topology := fun _ _ => true }

/-- The committed two-node graph radio -> sink of scenario S6; the radio sits
first in the topological order. -/
def gS6 (c : Nat) : Graph :=
  { nodes := [mock_radio c, mock_sink],
    edges := [{ src := 0, dst := 1,
                info := { src_port := 0, dst_port := 0, src_blockid := "radio",
                          dst_blockid := "sink", property_propagation_active := true } }],
    releaseCount := 0 }

/-- N successive calls to resolve_all_properties. -/
def iterate_resolve : Nat → Graph → Graph
  | 0, g => g
  | n + 1, g => iterate_resolve n (resolve_all_full g).graph

/-- Read the counter property of a vertex. -/
def counter_value (g : Graph) (v : Nat) : Option Nat :=
  ((node_at g v).props.find? (fun p => p.id == "counter")).map (fun p => p.value)

theorem process_gS6_radio (c : Nat) : process_node (gS6 c) [0, 1] 0 = gS6 (c + 1) := rfl

theorem process_gS6_sink (c : Nat) : process_node (gS6 c) [0, 1] 1 = gS6 c := rfl

theorem walk_gS6 (c : Nat) : walk_all (gS6 c) [0, 1] = gS6 (c + 2) := by
  show (walkVisits 2
      (([0, 1] : List Nat).findIdx (fun v => v == (find_dirty_nodes (gS6 c)).headD 0))
      (lapLen 2 (([0, 1] : List Nat).findIdx (fun v => v == (find_dirty_nodes (gS6 c)).headD 0))
        + (lapLen 2 (([0, 1] : List Nat).findIdx (fun v => v == (find_dirty_nodes (gS6 c)).headD 0)) + 2))
      ((([0, 1] : List Nat).findIdx (fun v => v == (find_dirty_nodes (gS6 c)).headD 0)), true) 0).foldl
      (fun h pos => process_node h [0, 1] pos) (gS6 c) = gS6 (c + 2)
  have hk : ([0, 1] : List Nat).findIdx (fun v => v == (find_dirty_nodes (gS6 c)).headD 0) = 0 := rfl
  rw [hk]
  have hv : walkVisits 2 0 (lapLen 2 0 + (lapLen 2 0 + 2)) (0, true) 0 = [0, 1, 0, 1] := rfl
  rw [hv]
  simp only [List.foldl]
  rw [process_gS6_radio c, process_gS6_sink (c + 1), process_gS6_radio (c + 1),
    process_gS6_sink (c + 2)]

theorem resolve_gS6 (c : Nat) :
    resolve_all_full (gS6 c) = { graph := gS6 (c + 2), walkRan := true, err := none } := by
  have h1 : ¬ ((gS6 c).nodes.length = 0) := by simp [gS6]
  have h2 : ¬ ((gS6 c).releaseCount ≠ 0) := by simp [gS6]
  have h3 : topo_sorted_nodes (gS6 c) = some [0, 1] := rfl
  rw [resolve_all_full, if_neg h1, if_neg h2, h3]
  show resolve_post (walk_all (gS6 c) [0, 1]) = _
  rw [walk_gS6 c]
  have h4 : dirty_offenders (gS6 (c + 2)) = [] := rfl
  have h5 : check_back_edges (gS6 (c + 2)) = Except.ok true := rfl
  rw [resolve_post, if_pos h4, h5]

theorem iterate_gS6 (N c : Nat) : iterate_resolve N (gS6 c) = gS6 (c + 2 * N) := by
  induction N generalizing c with
  | zero => simp [iterate_resolve]
  | succ N ih =>
    show iterate_resolve N (resolve_all_full (gS6 c)).graph = gS6 (c + 2 * (N + 1))
    rw [resolve_gS6 c]
    rw [ih (c + 2)]
    rw [show c + 2 + 2 * N = c + 2 * (N + 1) by omega]

/-- A trivial source node for the three-node chain. -/
def mock_source : Node :=
  { uid := "first", props := [], resolvers := [], check_topology := fun _ _ => true }

/-- The instrumented node placed in the middle of the chain. -/
def mock_mid : Node :=
  { uid := "mid", props := [counter_prop 0], resolvers := [counter_resolver],
    check_topology := fun _ _ => true }

/-- A trivial terminal node for the three-node chain. -/
def mock_last : Node :=
  { uid := "last", props := [], resolvers := [], check_topology := fun _ _ => true }

/-- A committed three-node chain first -> mid -> last whose middle node
carries the ALWAYS-DIRTY counter resolver. -/
def gC5 : Graph :=
  { nodes := [mock_source, mock_mid, mock_last],
    edges := [{ src := 0, dst := 1,
                info := { src_port := 0, dst_port := 0, src_blockid := "first",
                          dst_blockid := "mid", property_propagation_active := true } },
              { src := 1, dst := 2,
                info := { src_port := 0, dst_port := 0, src_blockid := "mid",
                          dst_blockid := "last", property_propagation_active := true } }],
    releaseCount := 0 }

/-- Claim C5 counterexample: on a committed three-node chain, one call to
resolve_all_properties succeeds but runs the middle node's ALWAYS-DIRTY
resolver four times, not twice: its counter ends at 4, not 2·N = 2 for
N = 1.  The two-pass walk visits an interior node of the topological order
twice per pass. -/
theorem claim_C5_counterexample :
    (resolve_all_full gC5).err = none
      ∧ counter_value (resolve_all_full gC5).graph 1 = some 4
      ∧ ¬ counter_value (resolve_all_full gC5).graph 1 = some (2 * 1) := by
  refine ⟨rfl, rfl, ?_⟩
  intro h
  have h4 : counter_value (resolve_all_full gC5).graph 1 = some 4 := rfl
  rw [h4] at h
  simp at h

/-- Claim C5, amended.  The walk of resolve_all_properties terminates after
exactly two full passes: with the fuel used by walk_all, the visit sequence
is exactly two identical laps over the topologically sorted node list.  A
resolver whose input set contains the ALWAYS-DIRTY sentinel runs once per
visit of its node, and per call the walk visits the first and the last
position of the topological order exactly twice (also the sole node of a
one-node graph) but every interior position four times.  Hence the S6
counter property equals exactly 2·N after N calls when the instrumented
node sits first in the topological order (the committed radio -> sink mock
graph), while an interior node's counter reaches 4 per call. -/
theorem claim_C5_amended :
    (∀ n k0 s : Nat, 1 ≤ n → k0 < n →
      walkVisits n k0 (lapLen n k0 + (lapLen n k0 + s)) (k0, true) 0
        = walkLap n k0 ++ walkLap n k0)
    ∧ (∀ n k0 j : Nat, 1 ≤ n → k0 < n → j < n →
      (walkLap n k0 ++ walkLap n k0).count j
        = if n = 1 then 2 else if j = 0 ∨ j = n - 1 then 2 else 4)
    ∧ (∀ N : Nat, counter_value (iterate_resolve N (gS6 0)) 0 = some (2 * N)) := by
  refine ⟨?_, ?_, ?_⟩
  · intro n k0 s h1 hk
    exact wv_two_laps n k0 s h1 hk
  · intro n k0 j h1 hk hj
    exact count_two_laps n k0 j h1 hk hj
  · intro N
    rw [iterate_gS6 N 0]
    show counter_value (gS6 (0 + 2 * N)) 0 = some (2 * N)
    rw [show 0 + 2 * N = 2 * N by omega]
    rfl

/-- Witness for claim C5: the two-lap shape, the interior visit count 4 and
the boundary counter value 2·N at concrete inputs. -/
theorem claim_C5_witness :
    walkVisits 3 0 (lapLen 3 0 + (lapLen 3 0 + 0)) (0, true) 0 = walkLap 3 0 ++ walkLap 3 0
      ∧ (walkLap 3 0 ++ walkLap 3 0).count 1 = 4
      ∧ counter_value (iterate_resolve 2 (gS6 0)) 0 = some 4 := by
  refine ⟨claim_C5_amended.1 3 0 0 (by omega) (by omega), ?_, ?_⟩
  · have h := claim_C5_amended.2.1 3 0 1 (by omega) (by omega) (by omega)
    simpa using h
  · have h := claim_C5_amended.2.2 2
    simpa using h

theorem offenders_nil_iff (g : Graph) :
    (dirty_offenders g = []) ↔ no_dirty_nonframework g = true := by
  unfold dirty_offenders no_dirty_nonframework find_dirty_nodes
  constructor
  · intro h
    rw [List.all_eq_true]
    intro v hv
    by_contra hne
    have hmem : v ∈ (List.range g.nodes.length).filter
        (fun v => !(get_dirty_props (node_at g v)).isEmpty) := by
      rw [List.mem_filter]
      exact ⟨hv, by simp [hne]⟩
    obtain ⟨p, hp⟩ : ∃ p, p ∈ get_dirty_props (node_at g v) := by
      rcases hl : get_dirty_props (node_at g v) with _ | ⟨p, rest⟩
      · rw [hl] at hne
        simp at hne
      · exact ⟨p, hl ▸ List.mem_cons_self p rest⟩
    have hmem2 : ((node_at g v).uid, p.id) ∈
        ((List.range g.nodes.length).filter
          (fun v => !(get_dirty_props (node_at g v)).isEmpty)).flatMap
          (fun v => (get_dirty_props (node_at g v)).map (fun p => ((node_at g v).uid, p.id))) := by
      rw [List.mem_flatMap]
      exact ⟨v, hmem, List.mem_map_of_mem _ hp⟩
    rw [h] at hmem2
    simp at hmem2
  · intro h
    have hnil : (List.range g.nodes.length).filter
        (fun v => !(get_dirty_props (node_at g v)).isEmpty) = [] := by
      rw [List.filter_eq_nil_iff]
      intro v hv
      rw [List.all_eq_true] at h
      have hv2 := h v hv
      simp [hv2]
    rw [hnil]
    simp

/-- Claim C1: on a committed graph, whenever resolve_all_properties returns
without error, no property with source type other than FRAMEWORK is dirty on
any node; and when at least one such property is still dirty after the
two-pass walk, the call fails with the resolve-error carrying every
offending (node id, property id) pair. -/
theorem claim_C1_resolve_quiescence :
    (∀ g : Graph, g.releaseCount = 0 → (resolve_all_full g).err = none →
      no_dirty_nonframework (resolve_all_full g).graph = true)
    ∧ (∀ (g : Graph) (ord : List Nat), g.releaseCount = 0 → g.nodes.length ≠ 0 →
      topo_sorted_nodes g = some ord → dirty_offenders (walk_all g ord) ≠ [] →
      (resolve_all_full g).err
        = some (Err.resolveErrorDirty (dirty_offenders (walk_all g ord)))) := by
  constructor
  · intro g hrel herr
    by_cases hlen : g.nodes.length = 0
    · rw [resolve_all_full, if_pos hlen]
      simp [no_dirty_nonframework, hlen]
    · have hrel2 : ¬ (g.releaseCount ≠ 0) := by omega
      have hred : resolve_all_full g
          = match topo_sorted_nodes g with
            | none => { graph := g, walkRan := false, err := some Err.rfnocErrorCycle }
            | some ord => resolve_post (walk_all g ord) := by
        rw [resolve_all_full, if_neg hlen, if_neg hrel2]
      rcases htopo : topo_sorted_nodes g with _ | ord
      · rw [hred, htopo] at herr
        simp at herr
      · rw [htopo] at hred
        rw [hred] at herr
        replace herr : (resolve_post (walk_all g ord)).err = none := herr
        rw [hred]
        show no_dirty_nonframework (resolve_post (walk_all g ord)).graph = true
        by_cases hoff : dirty_offenders (walk_all g ord) = []
        · unfold resolve_post at herr ⊢
          rw [if_pos hoff] at herr ⊢
          rcases hcb : check_back_edges (walk_all g ord) with e | b
          · rw [hcb] at herr
            simp at herr
          · rcases b with _ | _
            · rw [hcb] at herr
              simp at herr
            · show no_dirty_nonframework (walk_all g ord) = true
              exact (offenders_nil_iff (walk_all g ord)).mp hoff
        · unfold resolve_post at herr
          rw [if_neg hoff] at herr
          simp at herr
  · intro g ord hrel hlen htopo hoff
    have hrel2 : ¬ (g.releaseCount ≠ 0) := by omega
    rw [resolve_all_full, if_neg hlen, if_neg hrel2, htopo]
    show (resolve_post (walk_all g ord)).err = _
    unfold resolve_post
    rw [if_neg hoff]

/-- A committed single-node graph with one clean USER property. -/
def gW1 : Graph :=
  { nodes := [{ uid := "solo",
                props := [{ id := "gain", src := { type := SourceType.USER, inst := 0 },
                            value := 1, dirty := false }],
                resolvers := [], check_topology := fun _ _ => true }],
    edges := [], releaseCount := 0 }

/-- Resolver body dirtying the edge property x with a fresh value on every
run. -/
def inc_x_fn : List NodeProp → List NodeProp :=
  fun ps => ps.map
    (fun p => if p.id == "x" then { p with value := p.value + 1, dirty := true } else p)

/-- A committed two-node graph A -> B whose downstream node B rewrites its
input-edge property x on every pass (its resolver depends on the
ALWAYS-DIRTY sentinel): forwarding B's new value upstream re-dirties A after
A's final visit, so a dirty property survives the two-pass walk. -/
def gDirty : Graph :=
  { nodes := [{ uid := "A",
                props := [{ id := "x", src := { type := SourceType.OUTPUT_EDGE, inst := 0 },
                            value := 1, dirty := false }],
                resolvers := [], check_topology := fun _ _ => true },
              { uid := "B",
                props := [{ id := "x", src := { type := SourceType.INPUT_EDGE, inst := 0 },
                            value := 1, dirty := false }],
                resolvers := [{ inputs := [PropRef.alwaysDirty],
                                outputs := [PropRef.regular { type := SourceType.INPUT_EDGE, inst := 0 } "x"],
                                fn := inc_x_fn }],
                check_topology := fun _ _ => true }],
    edges := [{ src := 0, dst := 1,
                info := { src_port := 0, dst_port := 0, src_blockid := "A",
                          dst_blockid := "B", property_propagation_active := true } }],
    releaseCount := 0 }

/-- Witness for claim C1 at concrete graphs: a resolvable graph returns no
error and is clean, a non-convergent graph fails listing its dirty
offenders. -/
theorem claim_C1_witness :
    ((resolve_all_full gW1).err = none
      ∧ no_dirty_nonframework (resolve_all_full gW1).graph = true)
    ∧ (dirty_offenders (walk_all gDirty [0, 1]) ≠ []
      ∧ (resolve_all_full gDirty).err
          = some (Err.resolveErrorDirty (dirty_offenders (walk_all gDirty [0, 1])))) := by
  refine ⟨⟨rfl, claim_C1_resolve_quiescence.1 gW1 rfl rfl⟩, ?_, ?_⟩
  · decide
  · exact claim_C1_resolve_quiescence.2 gDirty [0, 1] rfl (by decide) rfl (by decide)

/-- Every source-side property of the edge has a counterpart with the same id
on the destination side. -/
def edge_counterparts_present (g : Graph) (e : EdgeRec) : Bool :=
  (dedup_src g e).all (fun p => (lookup_by_id (dedup_dst g e) p.id).isSome)

/-- Some source-side property of the edge has an unequal destination
counterpart. -/
def edge_has_mismatch (g : Graph) (e : EdgeRec) : Bool :=
  (dedup_src g e).any (fun p =>
    match lookup_by_id (dedup_dst g e) p.id with
    | some q => !prop_equal p q
    | none => false)

/-- Counterparts are present on every back-edge. -/
def all_counterparts_present (g : Graph) : Bool :=
  (back_edges g).all (edge_counterparts_present g)

/-- Some back-edge shows a mismatching shared property. -/
def some_back_edge_mismatch (g : Graph) : Bool :=
  (back_edges g).any (edge_has_mismatch g)

theorem edge_props_match_of_present (dst_map : List NodeProp) :
    ∀ (srcl : List NodeProp) (acc : Bool),
      (srcl.all (fun p => (lookup_by_id dst_map p.id).isSome)) = true →
      edge_props_match dst_map srcl acc
        = Except.ok (acc && !(srcl.any (fun p =>
            match lookup_by_id dst_map p.id with
            | some q => !prop_equal p q
            | none => false))) := by
  intro srcl
  induction srcl with
  | nil =>
    intro acc _
    simp [edge_props_match]
  | cons p rest ih =>
    intro acc hall
    rw [List.all_cons] at hall
    rcases hq : lookup_by_id dst_map p.id with _ | q
    · rw [hq] at hall
      simp at hall
    · rw [hq] at hall
      simp only [Bool.and_eq_true] at hall
      have hstep : edge_props_match dst_map (p :: rest) acc
          = edge_props_match dst_map rest (acc && prop_equal p q) := by
        show (match lookup_by_id dst_map p.id with
          | none => Except.error Err.outOfRange
          | some q => edge_props_match dst_map rest (acc && prop_equal p q))
          = edge_props_match dst_map rest (acc && prop_equal p q)
        rw [hq]
      rw [hstep, ih (acc && prop_equal p q) hall.2, List.any_cons, hq]
      cases hpe : prop_equal p q <;> cases acc <;> simp [hpe]

theorem assert_edge_of_present (g : Graph) (e : EdgeRec)
    (h : edge_counterparts_present g e = true) :
    assert_edge_props_consistent g e = Except.ok (!edge_has_mismatch g e) := by
  unfold assert_edge_props_consistent
  rw [edge_props_match_of_present (dedup_dst g e) (dedup_src g e) true h]
  simp [edge_has_mismatch]

theorem check_back_edges_aux_of_present (g : Graph) :
    ∀ (l : List EdgeRec) (acc : Bool), (l.all (edge_counterparts_present g)) = true →
      check_back_edges_aux g l acc
        = Except.ok (acc && !(l.any (edge_has_mismatch g))) := by
  intro l
  induction l with
  | nil =>
    intro acc _
    simp [check_back_edges_aux]
  | cons e es ih =>
    intro acc hall
    rw [List.all_cons] at hall
    simp only [Bool.and_eq_true] at hall
    cases acc with
    | false =>
      have hstep : check_back_edges_aux g (e :: es) false
          = check_back_edges_aux g es false := by
        show (if false then _ else check_back_edges_aux g es false)
          = check_back_edges_aux g es false
        simp
      rw [hstep, ih false hall.2]
      simp
    | true =>
      have hstep : check_back_edges_aux g (e :: es) true
          = check_back_edges_aux g es (!edge_has_mismatch g e) := by
        show (if true then
            match assert_edge_props_consistent g e with
            | Except.error err => Except.error err
            | Except.ok b => check_back_edges_aux g es b
          else check_back_edges_aux g es false)
          = check_back_edges_aux g es (!edge_has_mismatch g e)
        rw [if_pos rfl, assert_edge_of_present g e hall.1]
      rw [hstep, ih (!edge_has_mismatch g e) hall.2, List.any_cons]
      cases hm : edge_has_mismatch g e <;> simp [hm]

/-- Claim C2, amended.  After the two-pass walk, back-edge verification walks
the source-side (OUTPUT_EDGE, src_port) property map of every back-edge and
looks each property up by id in the destination-side (INPUT_EDGE, dst_port)
map with unordered_map::at, so a property present only on the source
endpoint makes the call fail with an out-of-range lookup error rather than
being ignored; a property present only on the destination endpoint has no
effect (the loop never reads it).  When every source-side property has a
counterpart, the call fails with the back-edge resolve-error exactly when at
least one compared pair is unequal under the property's own equality, and
succeeds otherwise. -/
theorem claim_C2_amended :
    ∀ (g : Graph) (ord : List Nat), g.releaseCount = 0 → g.nodes.length ≠ 0 →
      topo_sorted_nodes g = some ord →
      dirty_offenders (walk_all g ord) = [] →
      all_counterparts_present (walk_all g ord) = true →
      (((resolve_all_full g).err = some Err.resolveErrorBackEdge
          ↔ some_back_edge_mismatch (walk_all g ord) = true)
        ∧ (some_back_edge_mismatch (walk_all g ord) = false →
            (resolve_all_full g).err = none)) := by
  intro g ord hrel hlen htopo hoff hpres
  have hrel2 : ¬ (g.releaseCount ≠ 0) := by omega
  have hred : (resolve_all_full g).err = (resolve_post (walk_all g ord)).err := by
    rw [resolve_all_full, if_neg hlen, if_neg hrel2, htopo]
  have hcb : check_back_edges (walk_all g ord)
      = Except.ok (!some_back_edge_mismatch (walk_all g ord)) := by
    unfold check_back_edges
    rw [check_back_edges_aux_of_present (walk_all g ord) (back_edges (walk_all g ord)) true hpres]
    simp [some_back_edge_mismatch]
  have hpost : (resolve_post (walk_all g ord)).err
      = (if some_back_edge_mismatch (walk_all g ord) then some Err.resolveErrorBackEdge else none) := by
    unfold resolve_post
    rw [if_pos hoff, hcb]
    cases hm : some_back_edge_mismatch (walk_all g ord) <;> simp [hm]
  rw [hred, hpost]
  cases hm : some_back_edge_mismatch (walk_all g ord) <;> simp [hm]

/-- A committed two-node graph with a single back-edge whose endpoints carry
matching, equal edge properties. -/
def gW2 : Graph :=
  { nodes := [{ uid := "R",
                props := [{ id := "x", src := { type := SourceType.OUTPUT_EDGE, inst := 0 },
                            value := 5, dirty := false }],
                resolvers := [], check_topology := fun _ _ => true },
              { uid := "S",
                props := [{ id := "x", src := { type := SourceType.INPUT_EDGE, inst := 0 },
                            value := 5, dirty := false }],
                resolvers := [], check_topology := fun _ _ => true }],
    edges := [{ src := 0, dst := 1,
                info := { src_port := 0, dst_port := 0, src_blockid := "R",
                          dst_blockid := "S", property_propagation_active := false } }],
    releaseCount := 0 }

/-- Witness for claim C2: on the concrete back-edge graph with equal
endpoint properties, the hypotheses hold and the call succeeds. -/
theorem claim_C2_witness :
    all_counterparts_present (walk_all gW2 [0, 1]) = true
      ∧ some_back_edge_mismatch (walk_all gW2 [0, 1]) = false
      ∧ (resolve_all_full gW2).err = none := by
  refine ⟨by decide, by decide, ?_⟩
  exact (claim_C2_amended gW2 [0, 1] rfl (by decide) rfl (by decide) (by decide)).2 (by decide)

/-- Same graph as gW2 except that the source node's edge property x has no
counterpart on the destination node. -/
def gB : Graph :=
  { nodes := [{ uid := "R",
                props := [{ id := "x", src := { type := SourceType.OUTPUT_EDGE, inst := 0 },
                            value := 5, dirty := false }],
                resolvers := [], check_topology := fun _ _ => true },
              { uid := "S", props := [], resolvers := [], check_topology := fun _ _ => true }],
    edges := [{ src := 0, dst := 1,
                info := { src_port := 0, dst_port := 0, src_blockid := "R",
                          dst_blockid := "S", property_propagation_active := false } }],
    releaseCount := 0 }

/-- Same as gB with the one-sided source property removed. -/
def gB2 : Graph :=
  { nodes := [{ uid := "R", props := [], resolvers := [], check_topology := fun _ _ => true },
              { uid := "S", props := [], resolvers := [], check_topology := fun _ _ => true }],
    edges := [{ src := 0, dst := 1,
                info := { src_port := 0, dst_port := 0, src_blockid := "R",
                          dst_blockid := "S", property_propagation_active := false } }],
    releaseCount := 0 }

/-- Claim C2 counterexample: an edge property present on only the source
endpoint of a back-edge does affect the outcome.  With the one-sided
property the call fails (with the out-of-range lookup error, although no
compared pair is unequal); with the property removed the call succeeds. -/
theorem claim_C2_counterexample :
    (resolve_all_full gB).err = some Err.outOfRange
      ∧ some_back_edge_mismatch (walk_all gB [0, 1]) = false
      ∧ (resolve_all_full gB2).err = none := by
  exact ⟨rfl, by decide, rfl⟩

theorem add_node_edges (g : Graph) (nd : Node) : (add_node g nd).edges = g.edges := by
  unfold add_node
  split <;> rfl

theorem add_node_release (g : Graph) (nd : Node) :
    (add_node g nd).releaseCount = g.releaseCount := by
  unfold add_node
  split <;> rfl

theorem connect_def (g : Graph) (src dst : Node) (einfo : GraphEdge) :
    connect g src dst einfo
      = connect_check (add_node (add_node g src) dst)
          (nodeIdxOf (add_node (add_node g src) dst) src.uid)
          (nodeIdxOf (add_node (add_node g src) dst) dst.uid)
          { einfo with src_blockid := src.uid, dst_blockid := dst.uid } := rfl

theorem connect_check_err (g1 : Graph) (sv dv : Nat) (e : GraphEdge) (err : Err)
    (h : first_edge_err e (out_edges g1 sv ++ in_edges g1 dv) = some err) :
    connect_check g1 sv dv e = (g1, some err) := by
  unfold connect_check
  rw [h]

theorem connect_check_cycle (g1 : Graph) (sv dv : Nat) (e : GraphEdge)
    (h1 : first_edge_err e (out_edges g1 sv ++ in_edges g1 dv) = none)
    (h2 : topo_sorted_nodes
        { g1 with edges := g1.edges ++ [{ src := sv, dst := dv, info := e }] } = none) :
    connect_check g1 sv dv e = (g1, some Err.rfnocErrorCycle) := by
  unfold connect_check
  rw [h1]
  simp only
  split
  · rename_i val heq
    rw [h2] at heq
    simp at heq
  · rfl

theorem connect_check_ok (g1 : Graph) (sv dv : Nat) (e : GraphEdge) (ord : List Nat)
    (h1 : first_edge_err e (out_edges g1 sv ++ in_edges g1 dv) = none)
    (h2 : topo_sorted_nodes
        { g1 with edges := g1.edges ++ [{ src := sv, dst := dv, info := e }] } = some ord) :
    connect_check g1 sv dv e
      = ({ g1 with edges := g1.edges ++ [{ src := sv, dst := dv, info := e }] }, none) := by
  unfold connect_check
  rw [h1]
  simp only
  split
  · rfl
  · rename_i heq
    rw [h2] at heq
    simp at heq

/-- Claim C3, amended.  When connect is called and the propagating sub-graph
with the tentative edge has a cycle (i.e. its topological sort fails, given
that the per-edge conflict checks pass), the call fails with the graph-cycle
error and the tentatively added edge is removed, restoring the edge list to
its pre-call value; however the node vertices added at the start of the call
(and the callbacks installed on the endpoints) are not rolled back, so the
rest of the graph state may differ from before the call. -/
theorem claim_C3_amended :
    ∀ (g : Graph) (src dst : Node) (einfo : GraphEdge),
      first_edge_err { einfo with src_blockid := src.uid, dst_blockid := dst.uid }
          (out_edges (add_node (add_node g src) dst)
              (nodeIdxOf (add_node (add_node g src) dst) src.uid)
            ++ in_edges (add_node (add_node g src) dst)
              (nodeIdxOf (add_node (add_node g src) dst) dst.uid)) = none →
      topo_sorted_nodes
          { add_node (add_node g src) dst with
            edges := (add_node (add_node g src) dst).edges
              ++ [{ src := nodeIdxOf (add_node (add_node g src) dst) src.uid,
                    dst := nodeIdxOf (add_node (add_node g src) dst) dst.uid,
                    info := { einfo with src_blockid := src.uid, dst_blockid := dst.uid } }] }
        = none →
      connect g src dst einfo = (add_node (add_node g src) dst, some Err.rfnocErrorCycle)
        ∧ (connect g src dst einfo).1.edges = g.edges := by
  intro g src dst einfo h1 h2
  have hc : connect g src dst einfo = (add_node (add_node g src) dst, some Err.rfnocErrorCycle) := by
    rw [connect_def]
    exact connect_check_cycle _ _ _ _ h1 h2
  refine ⟨hc, ?_⟩
  rw [hc]
  show (add_node (add_node g src) dst).edges = g.edges
  rw [add_node_edges, add_node_edges]

/-- A fresh single node used for the self-loop counterexample. -/
def selfNode : Node :=
  { uid := "u", props := [], resolvers := [], check_topology := fun _ _ => true }

/-- The empty graph state. -/
def graph0 : Graph :=
  { nodes := [], edges := [], releaseCount := 0 }

/-- A propagating self-loop request on a fresh node. -/
def selfEdge : GraphEdge :=
  { src_port := 0, dst_port := 0, src_blockid := "", dst_blockid := "",
    property_propagation_active := true }

/-- Claim C3 counterexample: connecting a fresh node to itself with a
propagating edge fails with the graph-cycle error and restores the edge
list, but the graph is not left unchanged: the node added before the cycle
check stays, so the vertex count differs from before the call. -/
theorem claim_C3_counterexample :
    (connect graph0 selfNode selfNode selfEdge).2 = some Err.rfnocErrorCycle
      ∧ (connect graph0 selfNode selfNode selfEdge).1.edges = graph0.edges
      ∧ ¬ (connect graph0 selfNode selfNode selfEdge).1.nodes.length
          = graph0.nodes.length := by
  refine ⟨rfl, rfl, ?_⟩
  intro h
  have h1 : (connect graph0 selfNode selfNode selfEdge).1.nodes.length = 1 := rfl
  rw [h1] at h
  simp [graph0] at h

/-- Witness for claim C3 at the self-loop input. -/
theorem claim_C3_witness :
    connect graph0 selfNode selfNode selfEdge
        = (add_node (add_node graph0 selfNode) selfNode, some Err.rfnocErrorCycle)
      ∧ (connect graph0 selfNode selfNode selfEdge).1.edges = graph0.edges := by
  exact claim_C3_amended graph0 selfNode selfNode selfEdge (by decide) (by decide)

/-- First endpoint block used by the duplicate-connect scenario. -/
def nodeA : Node :=
  { uid := "blockA", props := [], resolvers := [], check_topology := fun _ _ => true }

/-- Second endpoint block used by the duplicate-connect scenario. -/
def nodeB : Node :=
  { uid := "blockB", props := [], resolvers := [], check_topology := fun _ _ => true }

/-- The requested edge of the duplicate-connect scenario. -/
def eAB : GraphEdge :=
  { src_port := 0, dst_port := 0, src_blockid := "", dst_blockid := "",
    property_propagation_active := true }

/-- The graph after the first successful connect call. -/
def gAB : Graph :=
  (connect graph0 nodeA nodeB eAB).1

/-- Claim C6: a second connect call with an edge identical in every attribute
is accepted without error (assert_edge_new returns on the identical-edge
branch, logging that the repeated call is ignored), but the call then still
executes the unconditional add_edge, so the identical edge is stored twice:
the graph is not in the same state as after the first call. -/
theorem claim_C6_duplicate_edge :
    (connect graph0 nodeA nodeB eAB).2 = none
      ∧ gAB.edges.length = 1
      ∧ (connect gAB nodeA nodeB eAB).2 = none
      ∧ (connect gAB nodeA nodeB eAB).1.edges.length = 2
      ∧ (connect gAB nodeA nodeB eAB).1.edges.count
          { src := 0, dst := 1,
            info := { eAB with src_blockid := nodeA.uid, dst_blockid := nodeB.uid } } = 2 := by
  exact ⟨by decide, by decide, by decide, by decide, by decide⟩

/-- Well-formedness of the stored edges: vertex indices in range and block
ids matching the endpoint nodes (maintained by connect, which populates the
block ids from the endpoints). -/
def edges_wf (g : Graph) : Bool :=
  g.edges.all (fun e => decide (e.src < g.nodes.length) && decide (e.dst < g.nodes.length)
    && ((node_at g e.src).uid == e.info.src_blockid)
    && ((node_at g e.dst).uid == e.info.dst_blockid))

/-- No node of the list carries the given unique id. -/
def uid_fresh (u : String) (l : List Node) : Bool :=
  l.all (fun nd => !(nd.uid == u))

/-- The unique ids of the node list are pairwise distinct. -/
def uids_nodup : List Node → Bool
  | [] => true
  | nd :: rest => uid_fresh nd.uid rest && uids_nodup rest

theorem findIdx_uid_getD (u : String) :
    ∀ l : List Node, l.any (fun x => x.uid == u) = true →
      (l.getD (l.findIdx (fun x => x.uid == u)) emptyNode).uid = u := by
  intro l
  induction l with
  | nil => intro h; simp at h
  | cons nd rest ih =>
    intro h
    by_cases hu : nd.uid = u
    · have hbt : (nd.uid == u) = true := by simp [hu]
      rw [List.findIdx_cons, hbt]
      simpa using hu
    · have hb : (nd.uid == u) = false := by simp [hu]
      rw [List.findIdx_cons, hb]
      simp only [cond_false]
      rw [List.any_cons] at h
      have h2 : rest.any (fun x => x.uid == u) = true := by
        rcases Bool.or_eq_true_iff.mp h with h1 | h1
        · simp [hu] at h1
        · exact h1
      rw [List.getD_cons_succ]
      exact ih h2

theorem findIdx_append_of_any (p : Node → Bool) :
    ∀ l1 l2 : List Node, l1.any p = true →
      (l1 ++ l2).findIdx p = l1.findIdx p := by
  intro l1
  induction l1 with
  | nil => intro l2 h; simp at h
  | cons nd rest ih =>
    intro l2 h
    rw [List.cons_append, List.findIdx_cons, List.findIdx_cons]
    cases hp : p nd with
    | true => simp
    | false =>
      rw [List.any_cons, hp] at h
      simp only [Bool.false_or] at h
      simp only [cond_false]
      rw [ih l2 h]

theorem getD_append_left (l1 l2 : List Node) (i : Nat) (d : Node) (h : i < l1.length) :
    (l1 ++ l2).getD i d = l1.getD i d := by
  rw [List.getD_eq_getElem?_getD, List.getD_eq_getElem?_getD, List.getElem?_append_left h]

theorem nodup_uid_index_unique (u : String) :
    ∀ l : List Node, uids_nodup l = true →
      ∀ j : Nat, j < l.length → (l.getD j emptyNode).uid = u →
        j = l.findIdx (fun x => x.uid == u) := by
  intro l
  induction l with
  | nil => intro _ j hj; simp at hj
  | cons nd rest ih =>
    intro hnd j hj hu
    rw [show uids_nodup (nd :: rest) = (uid_fresh nd.uid rest && uids_nodup rest) from rfl,
      Bool.and_eq_true] at hnd
    by_cases hcase : nd.uid = u
    · have hbt : (nd.uid == u) = true := by simp [hcase]
      rw [List.findIdx_cons, hbt]
      simp only [cond_true]
      rcases j with _ | i
      · rfl
      · exfalso
        rw [List.getD_cons_succ] at hu
        have hi : i < rest.length := by simpa using hj
        have hmem : rest.getD i emptyNode ∈ rest := by
          rw [List.getD_eq_getElem rest emptyNode hi]
          exact List.getElem_mem hi
        have hall := (List.all_eq_true.mp hnd.1) _ hmem
        simp only [Bool.not_eq_true'] at hall
        rw [hu] at hall
        simp [hcase] at hall
    · have hb : (nd.uid == u) = false := by simp [hcase]
      rw [List.findIdx_cons, hb]
      simp only [cond_false]
      rcases j with _ | i
      · exfalso
        rw [List.getD_cons_zero] at hu
        exact hcase hu
      · rw [List.getD_cons_succ] at hu
        have hi : i < rest.length := by simpa using hj
        rw [ih hnd.2 i hi hu]

theorem first_edge_err_all (e : GraphEdge) (err0 : Err) :
    ∀ l : List EdgeRec,
      (∀ r ∈ l, assert_edge_new e r.info = none ∨ assert_edge_new e r.info = some err0) →
      (∃ r ∈ l, assert_edge_new e r.info = some err0) →
      first_edge_err e l = some err0 := by
  intro l
  induction l with
  | nil =>
    intro _ hex
    simp at hex
  | cons r rest ih =>
    intro hall hex
    rcases hr : assert_edge_new e r.info with _ | e'
    · have hstep : first_edge_err e (r :: rest) = first_edge_err e rest := by
        show (match assert_edge_new e r.info with
          | some e' => some e'
          | none => first_edge_err e rest) = first_edge_err e rest
        rw [hr]
      rw [hstep]
      rcases hex with ⟨r2, hmem, hr2⟩
      rcases List.mem_cons.mp hmem with heq | hmem2
      · rw [heq] at hr2
        rw [hr2] at hr
        simp at hr
      · exact ih (fun x hx => hall x (List.mem_cons_of_mem r hx)) ⟨r2, hmem2, hr2⟩
    · have he' : e' = err0 := by
        rcases hall r (List.mem_cons_self r rest) with h1 | h1
        · rw [hr] at h1
          simp at h1
        · rw [hr] at h1
          simpa using h1
      show (match assert_edge_new e r.info with
        | some e' => some e'
        | none => first_edge_err e rest) = some err0
      rw [hr, he']

theorem add_node_any_self (g : Graph) (nd : Node) :
    ((add_node g nd).nodes.any (fun x => x.uid == nd.uid)) = true := by
  unfold add_node
  split
  · assumption
  · simp

theorem add_node_any_mono (g : Graph) (nd : Node) (p : Node → Bool)
    (h : g.nodes.any p = true) : ((add_node g nd).nodes.any p) = true := by
  unfold add_node
  split
  · exact h
  · simp only [List.any_append, h, Bool.true_or]

theorem add_node_nodes_ext (g : Graph) (nd : Node) :
    ∃ ext, (add_node g nd).nodes = g.nodes ++ ext := by
  unfold add_node
  split
  · exact ⟨[], by simp⟩
  · exact ⟨[nd], rfl⟩

theorem assert_edge_new_of_no_src (e' rinfo : GraphEdge)
    (hne : ¬(rinfo.src_blockid = e'.src_blockid ∧ rinfo.src_port = e'.src_port)) :
    assert_edge_new e' rinfo
      = (if e'.dst_blockid == rinfo.dst_blockid && e'.dst_port == rinfo.dst_port
         then some Err.rfnocErrorReconnectIn else none) := by
  unfold assert_edge_new
  have c1 : (rinfo == e') = false := by
    simp only [beq_eq_false_iff_ne, ne_eq]
    intro hh
    exact hne (by rw [hh]; exact ⟨rfl, rfl⟩)
  have c2 : (rinfo.src_port == e'.src_port && rinfo.src_blockid == e'.src_blockid
      && rinfo.dst_port == e'.dst_port && rinfo.dst_blockid == e'.dst_blockid) = false := by
    by_cases hb : rinfo.src_blockid = e'.src_blockid
    · have hp : ¬ rinfo.src_port = e'.src_port := fun hp => hne ⟨hb, hp⟩
      simp [hp]
    · simp [hb]
  have c3 : (e'.src_blockid == rinfo.src_blockid && e'.src_port == rinfo.src_port) = false := by
    by_cases hb : rinfo.src_blockid = e'.src_blockid
    · have hp : ¬ e'.src_port = rinfo.src_port := fun hp => hne ⟨hb, hp.symm⟩
      simp [hp]
    · have hb2 : ¬ e'.src_blockid = rinfo.src_blockid := fun hh => hb hh.symm
      simp [hb2]
  rw [c1, c2, c3]
  simp

/-- The edge attributes after connect populates the block ids from the
endpoint nodes. -/
def populated (src dst : Node) (einfo : GraphEdge) : GraphEdge :=
  { einfo with src_blockid := src.uid, dst_blockid := dst.uid }

/-- Claim C7: on a well-formed graph (stored edges consistent with the vertex
list, unique ids distinct), a connect call whose destination (node, port)
pair is already the sink of an existing edge, while its source (node, port)
pair is not yet sourced anywhere, fails with the reconnect-input
routing error and leaves the edge list unchanged: afterwards the graph
contains only the previously existing edges. -/
theorem claim_C7_reconnect_input :
    ∀ (g : Graph) (src dst : Node) (einfo : GraphEdge),
      edges_wf g = true →
      uids_nodup g.nodes = true →
      (g.nodes.any (fun nd => nd.uid == dst.uid)) = true →
      (g.edges.all (fun r =>
        !(r.info.src_blockid == src.uid && r.info.src_port == einfo.src_port))) = true →
      (g.edges.any (fun r =>
        r.info.dst_blockid == dst.uid && r.info.dst_port == einfo.dst_port)) = true →
      (connect g src dst einfo).2 = some Err.rfnocErrorReconnectIn
        ∧ (connect g src dst einfo).1.edges = g.edges := by
  intro g src dst einfo hwf hnodup hdst h1 h2
  have hedges : (add_node (add_node g src) dst).edges = g.edges := by
    rw [add_node_edges, add_node_edges]
  have hnosrc : ∀ r : EdgeRec, r ∈ g.edges →
      ¬(r.info.src_blockid = (populated src dst einfo).src_blockid
        ∧ r.info.src_port = (populated src dst einfo).src_port) := by
    intro r hr hcontra
    have hh := (List.all_eq_true.mp h1) r hr
    simp only [Bool.not_eq_true', Bool.and_eq_false_iff] at hh
    rcases hh with hh | hh
    · rw [beq_eq_false_iff_ne] at hh
      exact hh hcontra.1
    · rw [beq_eq_false_iff_ne] at hh
      exact hh hcontra.2
  have hclass : ∀ r ∈ out_edges (add_node (add_node g src) dst)
        (nodeIdxOf (add_node (add_node g src) dst) src.uid)
      ++ in_edges (add_node (add_node g src) dst)
        (nodeIdxOf (add_node (add_node g src) dst) dst.uid),
      assert_edge_new (populated src dst einfo) r.info = none
        ∨ assert_edge_new (populated src dst einfo) r.info
            = some Err.rfnocErrorReconnectIn := by
    intro r hr
    have hrg : r ∈ g.edges := by
      rcases List.mem_append.mp hr with hh | hh
      · have hh2 := (List.mem_filter.mp hh).1
        rw [hedges] at hh2
        exact hh2
      · have hh2 := (List.mem_filter.mp hh).1
        rw [hedges] at hh2
        exact hh2
    rw [assert_edge_new_of_no_src _ _ (hnosrc r hrg)]
    by_cases hc : ((populated src dst einfo).dst_blockid == r.info.dst_blockid
        && (populated src dst einfo).dst_port == r.info.dst_port) = true
    · right
      rw [hc]
      rfl
    · left
      rw [Bool.not_eq_true] at hc
      rw [hc]
      rfl
  have hex : ∃ r ∈ out_edges (add_node (add_node g src) dst)
        (nodeIdxOf (add_node (add_node g src) dst) src.uid)
      ++ in_edges (add_node (add_node g src) dst)
        (nodeIdxOf (add_node (add_node g src) dst) dst.uid),
      assert_edge_new (populated src dst einfo) r.info = some Err.rfnocErrorReconnectIn := by
    rcases List.any_eq_true.mp h2 with ⟨e0, he0mem, he0⟩
    simp only [Bool.and_eq_true, beq_iff_eq] at he0
    have hwf0 := (List.all_eq_true.mp hwf) e0 he0mem
    simp only [Bool.and_eq_true, decide_eq_true_eq, beq_iff_eq] at hwf0
    obtain ⟨ext1, hext1⟩ := add_node_nodes_ext g src
    obtain ⟨ext2, hext2⟩ := add_node_nodes_ext (add_node g src) dst
    have hext : (add_node (add_node g src) dst).nodes = g.nodes ++ (ext1 ++ ext2) := by
      rw [hext2, hext1, List.append_assoc]
    have hdv : nodeIdxOf (add_node (add_node g src) dst) dst.uid
        = g.nodes.findIdx (fun x => x.uid == dst.uid) := by
      unfold nodeIdxOf
      rw [hext, findIdx_append_of_any _ _ _ hdst]
    have he0dst : e0.dst = nodeIdxOf (add_node (add_node g src) dst) dst.uid := by
      rw [hdv]
      exact nodup_uid_index_unique dst.uid g.nodes hnodup e0.dst hwf0.1.1.2
        (by rw [show (g.nodes.getD e0.dst emptyNode).uid = (node_at g e0.dst).uid from rfl,
          hwf0.2, he0.1])
    refine ⟨e0, ?_, ?_⟩
    · apply List.mem_append.mpr
      right
      apply List.mem_filter.mpr
      refine ⟨by rw [hedges]; exact he0mem, ?_⟩
      simp [he0dst]
    · rw [assert_edge_new_of_no_src _ _ (hnosrc e0 he0mem)]
      have hc : ((populated src dst einfo).dst_blockid == e0.info.dst_blockid
          && (populated src dst einfo).dst_port == e0.info.dst_port) = true := by
        simp only [Bool.and_eq_true, beq_iff_eq]
        exact ⟨he0.1.symm, he0.2.symm⟩
      rw [hc]
      rfl
  have hfe := first_edge_err_all (populated src dst einfo)
    Err.rfnocErrorReconnectIn _ hclass hex
  have hconn : connect g src dst einfo
      = (add_node (add_node g src) dst, some Err.rfnocErrorReconnectIn) := by
    rw [connect_def]
    exact connect_check_err _ _ _ _ _ hfe
  rw [hconn]
  exact ⟨rfl, hedges⟩

/-- Third endpoint block for the S4 reconnect scenario. -/
def nodeC : Node :=
  { uid := "blockC", props := [], resolvers := [], check_topology := fun _ _ => true }

/-- The S4 scenario graph: blockA:0 -> blockB:0 already connected. -/
def gS4 : Graph :=
  { nodes := [nodeA, nodeB],
    edges := [{ src := 0, dst := 1,
                info := { src_port := 0, dst_port := 0, src_blockid := "blockA",
                          dst_blockid := "blockB", property_propagation_active := true } }],
    releaseCount := 0 }

/-- Witness for claim C7: connecting blockC:0 to the already-sunk blockB:0
fails with reconnect-input and keeps only the first edge. -/
theorem claim_C7_witness :
    (connect gS4 nodeC nodeB eAB).2 = some Err.rfnocErrorReconnectIn
      ∧ (connect gS4 nodeC nodeB eAB).1.edges = gS4.edges :=
  claim_C7_reconnect_input gS4 nodeC nodeB eAB (by decide) (by decide) (by decide)
    (by decide) (by decide)

/-- MAX_ACTION_ITERATIONS (graph.cpp line 21). -/
def MAX_ACTION_ITERATIONS : Nat := 200

/-- A queued action tuple: posting vertex, posting port and the action
(abstracted to its numeric id; the drain never inspects the payload). -/
structure ActTuple where
  node : Nat
  port : ResSourceInfo
  act : Nat
deriving DecidableEq, Repr

/-- A performed delivery: recipient vertex, recipient port, action. -/
structure Delivery where
  node : Nat
  port : ResSourceInfo
  act : Nat
deriving DecidableEq, Repr

/-- The recipient computation of one drain iteration (graph.cpp lines
387-393): the recipient port's type is the inversion of the posting port's
type, its index is the edge's dst_port for an INPUT_EDGE posting port and
the edge's src_port for an OUTPUT_EDGE posting port. -/
def delivery_for (t : ActTuple) (m : Nat) (einfo : GraphEdge) : Delivery :=
  { node := m,
    port := { type := invert_edge t.port.type,
              inst := if t.port.type == SourceType.INPUT_EDGE
                      then einfo.dst_port else einfo.src_port },
    act := t.act }

/-- Result of a drain loop: deliveries made (in order), number of queue pops
performed, the queue left behind, and the thrown error if any. -/
structure DrainRes where
  delivs : List Delivery
  pops : Nat
  queueLeft : List ActTuple
  err : Option Err
deriving Repr

/-- The drain loop of enqueue_action (graph.cpp lines 364-402), with the
recipients' reactions abstracted into `respond`: whatever actions the
recipient posts from inside its handler are appended to the queue through
the re-entrant enqueue_action path.  The fuel counts the remaining
iterations before iteration_count reaches MAX_ACTION_ITERATIONS: when the
queue is non-empty at the cap, the recursion-limit error is thrown; a failed
neighbour lookup of an action posted on a non-edge port propagates the
invalid-code-path error out of the loop. -/
def drainLoop (g : Graph) (respond : Delivery → List ActTuple) :
    Nat → List ActTuple → DrainRes
  | _, [] => { delivs := [], pops := 0, queueLeft := [], err := none }
  | 0, t :: rest =>
    { delivs := [], pops := 0, queueLeft := t :: rest,
      err := some Err.runtimeErrorRecursionLimit }
  | fuel + 1, t :: rest =>
    match find_neighbour g t.node t.port with
    | Except.error e => { delivs := [], pops := 1, queueLeft := rest, err := some e }
    | Except.ok none =>
      let r := drainLoop g respond fuel rest
      { delivs := r.delivs, pops := r.pops + 1, queueLeft := r.queueLeft, err := r.err }
    | Except.ok (some (m, einfo)) =>
      let d := delivery_for t m einfo
      let r := drainLoop g respond fuel (rest ++ respond d)
      { delivs := d :: r.delivs, pops := r.pops + 1, queueLeft := r.queueLeft, err := r.err }

/-- The action-engine state: the pending queue and the test-and-set
action-handling flag. -/
structure ActionState where
  queue : List ActTuple
  handling : Bool
deriving Repr

/-- Result of one enqueue_action call. -/
structure EnqOut where
  state : ActionState
  delivs : List Delivery
  pops : Nat
  err : Option Err
deriving Repr

/-- graph_t::enqueue_action (graph.cpp lines 336-409): drop the action with a
warning when the graph is released; otherwise test-and-set the handling
flag and append the action; a re-entrant (or concurrent) call returns after
appending; the outermost call drains the queue with the 200-iteration cap
and clears the handling flag only on normal completion, so a thrown error
leaves the flag set. -/
def enqueue_action (g : Graph) (respond : Delivery → List ActTuple)
    (st : ActionState) (t : ActTuple) : EnqOut :=
  if g.releaseCount ≠ 0 then { state := st, delivs := [], pops := 0, err := none }
  else
    let ongoing := st.handling
    let st1 : ActionState := { queue := st.queue ++ [t], handling := true }
    if ongoing then { state := st1, delivs := [], pops := 0, err := none }
    else
      let r := drainLoop g respond MAX_ACTION_ITERATIONS st1.queue
      match r.err with
      | some e =>
        { state := { queue := r.queueLeft, handling := true }, delivs := r.delivs,
          pops := r.pops, err := some e }
      | none =>
        { state := { queue := r.queueLeft, handling := false }, delivs := r.delivs,
          pops := r.pops, err := none }

theorem find_neighbour_err (g : Graph) (origin : Nat) (port : ResSourceInfo) (e : Err)
    (h : find_neighbour g origin port = Except.error e) : e = Err.invalidCodePath := by
  unfold find_neighbour at h
  rcases hp : port.type <;> rw [hp] at h
  · simp at h
    exact h.symm
  · rcases hf : (in_edges g origin).find? (fun r => r.info.dst_port == port.inst) with _ | e0 <;>
      rw [hf] at h <;> simp at h
  · rcases hf : (out_edges g origin).find? (fun r => r.info.src_port == port.inst) with _ | e0 <;>
      rw [hf] at h <;> simp at h
  · simp at h
    exact h.symm

theorem drainLoop_pops_le (g : Graph) (respond : Delivery → List ActTuple) :
    ∀ (fuel : Nat) (q : List ActTuple), (drainLoop g respond fuel q).pops ≤ fuel := by
  intro fuel
  induction fuel with
  | zero =>
    intro q
    cases q <;> simp [drainLoop]
  | succ fuel ih =>
    intro q
    cases q with
    | nil => simp [drainLoop]
    | cons t rest =>
      rcases hfn : find_neighbour g t.node t.port with e | mo
      · simp [drainLoop, hfn]
      · rcases mo with _ | ⟨m, einfo⟩
        · have := ih rest
          simp [drainLoop, hfn]
          omega
        · have := ih (rest ++ respond (delivery_for t m einfo))
          simp [drainLoop, hfn]
          omega

theorem drainLoop_reclimit (g : Graph) (respond : Delivery → List ActTuple) :
    ∀ (fuel : Nat) (q : List ActTuple),
      (drainLoop g respond fuel q).err = some Err.runtimeErrorRecursionLimit →
      (drainLoop g respond fuel q).queueLeft ≠ [] := by
  intro fuel
  induction fuel with
  | zero =>
    intro q herr
    cases q with
    | nil => simp [drainLoop] at herr
    | cons t rest => simp [drainLoop]
  | succ fuel ih =>
    intro q herr
    cases q with
    | nil => simp [drainLoop] at herr
    | cons t rest =>
      rcases hfn : find_neighbour g t.node t.port with e | mo
      · rw [show drainLoop g respond (fuel + 1) (t :: rest)
            = { delivs := [], pops := 1, queueLeft := rest, err := some e } from by
          simp [drainLoop, hfn]] at herr
        simp at herr
        have := find_neighbour_err g t.node t.port e hfn
        rw [this] at herr
        simp at herr
      · rcases mo with _ | ⟨m, einfo⟩
        · have hred : drainLoop g respond (fuel + 1) (t :: rest)
              = { delivs := (drainLoop g respond fuel rest).delivs,
                  pops := (drainLoop g respond fuel rest).pops + 1,
                  queueLeft := (drainLoop g respond fuel rest).queueLeft,
                  err := (drainLoop g respond fuel rest).err } := by
            simp [drainLoop, hfn]
          rw [hred] at herr ⊢
          exact ih rest herr
        · have hred : drainLoop g respond (fuel + 1) (t :: rest)
              = { delivs := delivery_for t m einfo
                    :: (drainLoop g respond fuel (rest ++ respond (delivery_for t m einfo))).delivs,
                  pops := (drainLoop g respond fuel (rest ++ respond (delivery_for t m einfo))).pops + 1,
                  queueLeft := (drainLoop g respond fuel (rest ++ respond (delivery_for t m einfo))).queueLeft,
                  err := (drainLoop g respond fuel (rest ++ respond (delivery_for t m einfo))).err } := by
            simp [drainLoop, hfn]
          rw [hred] at herr ⊢
          exact ih (rest ++ respond (delivery_for t m einfo)) herr

/-- Claim C8: every action drain pops at most MAX_ACTION_ITERATIONS = 200
queued actions (so the pop count of any enqueue_action call is at most
200); a drain that fails with the recursion-limit error leaves a non-empty
queue behind; and when the queue is still non-empty as the iteration cap is
reached, the drain fails with exactly the recursion-limit error. -/
theorem claim_C8_drain_cap :
    (∀ (g : Graph) (respond : Delivery → List ActTuple) (st : ActionState) (t : ActTuple),
      (enqueue_action g respond st t).pops ≤ MAX_ACTION_ITERATIONS)
    ∧ (∀ (g : Graph) (respond : Delivery → List ActTuple) (fuel : Nat) (q : List ActTuple),
      (drainLoop g respond fuel q).err = some Err.runtimeErrorRecursionLimit →
      (drainLoop g respond fuel q).queueLeft ≠ [])
    ∧ (∀ (g : Graph) (respond : Delivery → List ActTuple) (t : ActTuple)
        (rest : List ActTuple),
      drainLoop g respond 0 (t :: rest)
        = { delivs := [], pops := 0, queueLeft := t :: rest,
            err := some Err.runtimeErrorRecursionLimit }) := by
  refine ⟨?_, drainLoop_reclimit, fun g respond t rest => rfl⟩
  intro g respond st t
  unfold enqueue_action
  by_cases hrel : g.releaseCount ≠ 0
  · rw [if_pos hrel]
    simp
  · rw [if_neg hrel]
    simp only
    by_cases hon : st.handling
    · rw [if_pos hon]
      simp
    · rw [if_neg hon]
      have hle := drainLoop_pops_le g respond MAX_ACTION_ITERATIONS (st.queue ++ [t])
      rcases herr : (drainLoop g respond MAX_ACTION_ITERATIONS (st.queue ++ [t])).err with _ | e
      · simpa using hle
      · simpa using hle

/-- Claim C9: in every drain iteration whose neighbour lookup succeeds, the
action is delivered to the recipient port whose type is the inversion of
the posting port's type and whose index is the connecting edge's dst_port
when the posting port is an INPUT_EDGE port and the edge's src_port when it
is an OUTPUT_EDGE port; the drain prepends exactly that delivery. -/
theorem claim_C9_recipient_port :
    (∀ (t : ActTuple) (m : Nat) (einfo : GraphEdge),
      delivery_for t m einfo
        = { node := m,
            port := { type := invert_edge t.port.type,
                      inst := if t.port.type == SourceType.INPUT_EDGE
                              then einfo.dst_port else einfo.src_port },
            act := t.act })
    ∧ (∀ (g : Graph) (respond : Delivery → List ActTuple) (fuel : Nat)
        (t : ActTuple) (rest : List ActTuple) (m : Nat) (einfo : GraphEdge),
      find_neighbour g t.node t.port = Except.ok (some (m, einfo)) →
      (drainLoop g respond (fuel + 1) (t :: rest)).delivs
        = delivery_for t m einfo
          :: (drainLoop g respond fuel (rest ++ respond (delivery_for t m einfo))).delivs) := by
  constructor
  · intro t m einfo
    rfl
  · intro g respond fuel t rest m einfo hfn
    simp [drainLoop, hfn]

/-- Claim C10: if the drain loop terminates by throwing, the action-handling
flag is never cleared, so the resulting state keeps handling set; and every
enqueue_action call on a committed graph that finds the handling flag set
only appends its action to the queue and returns without delivering
anything. -/
theorem claim_C10_stuck_flag :
    (∀ (g : Graph) (respond : Delivery → List ActTuple) (st : ActionState) (t : ActTuple),
      g.releaseCount = 0 → (enqueue_action g respond st t).err ≠ none →
      (enqueue_action g respond st t).state.handling = true)
    ∧ (∀ (g : Graph) (respond : Delivery → List ActTuple) (st : ActionState) (t : ActTuple),
      g.releaseCount = 0 → st.handling = true →
      enqueue_action g respond st t
        = { state := { queue := st.queue ++ [t], handling := true }, delivs := [],
            pops := 0, err := none }) := by
  constructor
  · intro g respond st t hrel herr
    unfold enqueue_action at herr ⊢
    have hrel2 : ¬ g.releaseCount ≠ 0 := by omega
    rw [if_neg hrel2] at herr ⊢
    simp only at herr ⊢
    by_cases hon : st.handling
    · rw [if_pos hon] at herr
      simp at herr
    · rw [if_neg hon] at herr ⊢
      rcases he : (drainLoop g respond MAX_ACTION_ITERATIONS (st.queue ++ [t])).err with _ | e
      · rw [he] at herr
        simp at herr
      · rfl
  · intro g respond st t hrel hon
    unfold enqueue_action
    have hrel2 : ¬ g.releaseCount ≠ 0 := by omega
    rw [if_neg hrel2]
    simp only
    rw [if_pos hon]

/-- A committed two-node graph X:0 -> Y:0 for the action-engine witnesses. -/
def gAct : Graph :=
  { nodes := [{ uid := "X", props := [], resolvers := [], check_topology := fun _ _ => true },
              { uid := "Y", props := [], resolvers := [], check_topology := fun _ _ => true }],
    edges := [{ src := 0, dst := 1,
                info := { src_port := 0, dst_port := 0, src_blockid := "X",
                          dst_blockid := "Y", property_propagation_active := true } }],
    releaseCount := 0 }

/-- A recipient reaction that never posts follow-up actions. -/
def respond0 : Delivery → List ActTuple :=
  fun _ => []

/-- A recipient reaction that re-posts the same action forever. -/
def respond1 : Delivery → List ActTuple :=
  fun _ => [{ node := 0, port := { type := SourceType.OUTPUT_EDGE, inst := 0 }, act := 7 }]

/-- The action posted on X's output port 0. -/
def tX : ActTuple :=
  { node := 0, port := { type := SourceType.OUTPUT_EDGE, inst := 0 }, act := 7 }

/-- Witness for claim C8 at concrete inputs. -/
theorem claim_C8_witness :
    (enqueue_action gAct respond0 { queue := [], handling := false } tX).pops
        ≤ MAX_ACTION_ITERATIONS
      ∧ (drainLoop gAct respond0 0 [tX]).queueLeft ≠ []
      ∧ drainLoop gAct respond0 0 [tX]
          = { delivs := [], pops := 0, queueLeft := [tX],
              err := some Err.runtimeErrorRecursionLimit } :=
  ⟨claim_C8_drain_cap.1 gAct respond0 { queue := [], handling := false } tX,
    claim_C8_drain_cap.2.1 gAct respond0 0 [tX] rfl,
    claim_C8_drain_cap.2.2 gAct respond0 tX []⟩

/-- Witness for claim C9: the action posted on X's OUTPUT_EDGE port 0 is
delivered to Y on the inverted (INPUT_EDGE) port with the edge's src_port
index. -/
theorem claim_C9_witness :
    delivery_for tX 1
        { src_port := 0, dst_port := 0, src_blockid := "X", dst_blockid := "Y",
          property_propagation_active := true }
      = { node := 1,
          port := { type := invert_edge tX.port.type,
                    inst := if tX.port.type == SourceType.INPUT_EDGE then 0 else 0 },
          act := tX.act }
      ∧ (drainLoop gAct respond0 1 [tX]).delivs
        = delivery_for tX 1
            { src_port := 0, dst_port := 0, src_blockid := "X", dst_blockid := "Y",
              property_propagation_active := true }
          :: (drainLoop gAct respond0 0 ([] ++ respond0 (delivery_for tX 1
              { src_port := 0, dst_port := 0, src_blockid := "X", dst_blockid := "Y",
                property_propagation_active := true }))).delivs :=
  ⟨claim_C9_recipient_port.1 tX 1 _,
    claim_C9_recipient_port.2 gAct respond0 0 tX [] 1 _ rfl⟩

/-- Witness for claim C10: a drain that hits the recursion limit leaves the
handling flag set, and with the flag set a further enqueue only appends. -/
theorem claim_C10_witness :
    (enqueue_action gAct respond1 { queue := [], handling := false } tX).err ≠ none
      ∧ (enqueue_action gAct respond1 { queue := [], handling := false } tX).state.handling = true
      ∧ enqueue_action gAct respond1 { queue := [tX], handling := true } tX
          = { state := { queue := [tX] ++ [tX], handling := true }, delivs := [],
              pops := 0, err := none } := by
  refine ⟨by decide, ?_, ?_⟩
  · exact claim_C10_stuck_flag.1 gAct respond1 { queue := [], handling := false } tX rfl (by decide)
  · exact claim_C10_stuck_flag.2 gAct respond1 { queue := [tX], handling := true } tX rfl rfl

theorem foldl_release {α : Type} (f : Graph → α → Graph)
    (hf : ∀ (g : Graph) (a : α), (f g a).releaseCount = g.releaseCount) :
    ∀ (l : List α) (g : Graph), (l.foldl f g).releaseCount = g.releaseCount := by
  intro l
  induction l with
  | nil => intro g; rfl
  | cons a rest ih =>
    intro g
    rw [List.foldl_cons, ih, hf]

theorem forward_edge_props_release (g : Graph) (v : Nat) :
    (forward_edge_props g v).releaseCount = g.releaseCount := by
  unfold forward_edge_props
  apply foldl_release
  intro h p
  rcases hfn : find_neighbour h v p.src with e | mo
  · simp only [hfn]
  · rcases mo with _ | ⟨nb, einfo⟩
    · simp only [hfn]
    · simp only [hfn]
      split <;> rfl

theorem process_node_release (g : Graph) (ord : List Nat) (pos : Nat) :
    (process_node g ord pos).releaseCount = g.releaseCount := by
  unfold process_node
  rw [show ∀ (h : Graph) (v : Nat) (f : Node → Node),
      (updateNodeAt h v f).releaseCount = h.releaseCount from fun _ _ _ => rfl]
  rw [forward_edge_props_release]
  rfl

theorem walk_all_release (g : Graph) (ord : List Nat) :
    (walk_all g ord).releaseCount = g.releaseCount := by
  unfold walk_all
  apply foldl_release
  intro h pos
  exact process_node_release h ord pos

theorem resolve_post_graph (g' : Graph) : (resolve_post g').graph = g' := by
  unfold resolve_post
  split
  · split <;> rfl
  · rfl

theorem resolve_post_walkRan (g' : Graph) : (resolve_post g').walkRan = true := by
  unfold resolve_post
  split
  · split <;> rfl
  · rfl

theorem resolve_all_full_release (g : Graph) :
    (resolve_all_full g).graph.releaseCount = g.releaseCount := by
  unfold resolve_all_full
  split
  · rfl
  · split
    · rfl
    · split
      · rfl
      · rw [resolve_post_graph, walk_all_release]

theorem resolve_all_full_walkRan (g : Graph) :
    (resolve_all_full g).walkRan = walk_would_run g := by
  unfold resolve_all_full walk_would_run
  split
  · rename_i h
    simp [h]
  · rename_i h
    split
    · rename_i h2
      have : ¬ g.releaseCount = 0 := h2
      simp [this]
    · rename_i h2
      have hz : g.releaseCount = 0 := by omega
      split
      · rename_i heq
        simp [h, hz, heq]
      · rename_i ord heq
        rw [resolve_post_walkRan]
        simp [h, hz, heq]

/-- Claim C4, amended.  commit() decrements the release counter when the
counter is non-zero, and in that case it always invokes check_topology on
every node, regardless of whether the counter reaches zero; it then invokes
resolve_all_properties unconditionally (unless the topology check threw),
whose propagation walk executes exactly when the resulting counter is zero,
the graph is non-empty and the propagating sub-graph is acyclic — in
particular also on a commit that found the counter already at zero.
release() increments the counter. -/
theorem claim_C4_amended :
    ∀ g : Graph,
      ((commit g).graph.releaseCount = g.releaseCount - 1)
      ∧ ((commit g).topoChecked = !(g.releaseCount == 0))
      ∧ ((commit g).walkRan
          = (if g.releaseCount == 0 then walk_would_run g
             else check_topology_all { g with releaseCount := g.releaseCount - 1 }
                  && walk_would_run { g with releaseCount := g.releaseCount - 1 }))
      ∧ ((release g).releaseCount = g.releaseCount + 1) := by
  intro g
  unfold commit
  by_cases hrel : g.releaseCount ≠ 0
  · rw [if_pos hrel]
    have hb : (g.releaseCount == 0) = false := by
      simp
      omega
    by_cases htp : check_topology_all { g with releaseCount := g.releaseCount - 1 }
    · rw [if_pos htp]
      refine ⟨?_, ?_, ?_, rfl⟩
      · show (resolve_all_full { g with releaseCount := g.releaseCount - 1 }).graph.releaseCount
            = g.releaseCount - 1
        rw [resolve_all_full_release]
      · rw [hb]
        rfl
      · rw [hb]
        simp only [Bool.false_eq_true, if_false, htp, Bool.true_and]
        exact resolve_all_full_walkRan _
    · rw [if_neg htp]
      refine ⟨rfl, ?_, ?_, rfl⟩
      · rw [hb]
        rfl
      · rw [hb]
        simp only [Bool.false_eq_true, if_false]
        rw [show check_topology_all { g with releaseCount := g.releaseCount - 1 } = false from by
          simpa using htp]
        rfl
  · rw [if_neg hrel]
    have hz : g.releaseCount = 0 := by omega
    have hb : (g.releaseCount == 0) = true := by simp [hz]
    refine ⟨?_, ?_, ?_, rfl⟩
    · show (resolve_all_full g).graph.releaseCount = g.releaseCount - 1
      rw [resolve_all_full_release, hz]
    · rw [hb]
      rfl
    · rw [hb]
      simp only [if_true]
      exact resolve_all_full_walkRan g

/-- A released graph (release counter 2) with one trivially valid node. -/
def gC4 : Graph :=
  { nodes := [{ uid := "n", props := [], resolvers := [], check_topology := fun _ _ => true }],
    edges := [], releaseCount := 2 }

/-- Claim C4 counterexample: a commit that only brings the counter from 2 to
1 — thus leaving it non-zero — still runs the topology check on every node,
contradicting the claim that such a commit performs neither the topology
check nor any propagation; and a commit finding the counter already at zero
(where no decrement brings it to zero) still runs a propagation walk. -/
theorem claim_C4_counterexample :
    (commit gC4).topoChecked = true
      ∧ (commit gC4).graph.releaseCount = 1
      ∧ (commit gC4).walkRan = false
      ∧ (commit { nodes := gC4.nodes, edges := [], releaseCount := 0 }).walkRan = true
      ∧ (commit { nodes := gC4.nodes, edges := [], releaseCount := 0 }).topoChecked = false := by
  exact ⟨by decide, by decide, by decide, by decide, by decide⟩

/-- Witness for claim C4 at the concrete graph gC4. -/
theorem claim_C4_witness :
    (commit gC4).graph.releaseCount = gC4.releaseCount - 1
      ∧ (commit gC4).topoChecked = !(gC4.releaseCount == 0)
      ∧ (release gC4).releaseCount = gC4.releaseCount + 1 :=
  ⟨(claim_C4_amended gC4).1, (claim_C4_amended gC4).2.1, (claim_C4_amended gC4).2.2.2⟩
